import Mathlib

/-!
# Verification of the IAB Ad Product Taxonomy connector

Shallow embedding of the Python package `mixpeek_iab_product` (files
`taxonomy.py`, `keyword_mapping.py`, `cache.py`, `mapper.py`) together with
proofs about the claims of its specification.

Conventions of the embedding:
* Python `str` is modelled over ASCII-relevant `Char` operations
  (`lower`, `strip`, regex classes `\w`, `\s`); the inputs the program
  manipulates (taxonomy names, keyword table, product text) are ASCII.
* Python `float` confidences are modelled as `ℚ`; all confidence arithmetic
  in the source (`0.95 + k*0.01`, `min`, `+0.1` bounded by `0.99`) is exact
  at these magnitudes.
* Python `dict` literals in the source have no duplicate keys (checked
  against the source), so they are modelled as association lists with
  first-match lookup; assignment to an existing key replaces the value in
  place (dict insertion order is preserved), assignment to a fresh key
  appends.
* Fallible Python code (raising) is modelled with `Except String`.
* External collaborators (the HTTP classifier of `client.py`, the
  `hashlib.md5`/`json.dumps` fingerprint and the `cachetools.TTLCache`
  store of `cache.py`) are modelled through their contracts: the classifier
  is a possibly-faulting function parameter, the fingerprint an
  uninterpreted function of the normalized triple, the cache an association
  list.
-/

set_option maxRecDepth 20000
set_option maxHeartbeats 2000000

/- Batteries marks the `Rat` arithmetic operations `@[irreducible]`; the
concrete-evaluation proofs below need them to reduce. -/
attribute [local semireducible] Rat.ofScientific Rat.add Rat.mul Rat.inv Rat.sub

/-! ## Python string primitives -/

/-- Python whitespace characters (`str.split()`, `\s`, `str.strip()`),
ASCII fragment: space, tab, newline, carriage return, vertical tab, form feed. -/
def pyIsSpace (c : Char) : Bool :=
  c = ' ' || c = '\t' || c = '\n' || c = '\r' || c = Char.ofNat 11 || c = Char.ofNat 12

/-- Regex `\w` (word character), ASCII fragment: letters, digits, underscore. -/
def isWordChar (c : Char) : Bool :=
  (97 ≤ c.toNat && c.toNat ≤ 122) || (65 ≤ c.toNat && c.toNat ≤ 90) ||
  (48 ≤ c.toNat && c.toNat ≤ 57) || c.toNat = 95

/-- `str.lower()` on one character, ASCII fragment. -/
def toLowerChar (c : Char) : Char :=
  if 65 ≤ c.toNat && c.toNat ≤ 90 then Char.ofNat (c.toNat + 32) else c

/-- `str.lower()` over the characters of a string. -/
def pyToLowerList (l : List Char) : List Char := l.map toLowerChar

def pyToLower (s : String) : String := String.mk (pyToLowerList s.data)

/-- `str.strip()` over characters. -/
def pyStripList (l : List Char) : List Char :=
  ((l.dropWhile pyIsSpace).reverse.dropWhile pyIsSpace).reverse

def pyStrip (s : String) : String := String.mk (pyStripList s.data)

/-- `s[:n]`. -/
def strTake (s : String) (n : Nat) : String := String.mk (s.data.take n)

/-- `s.startswith(pre)`. -/
def pyStartsWith (s pre : String) : Bool := pre.data.isPrefixOf s.data

/-- `str.replace(pat, repl)`: replace all non-overlapping occurrences left to
right.  Fuel-based structural recursion; called with fuel `= l.length`, which
suffices whenever `pat` is non-empty (the only way the source calls it). -/
def pyReplaceChars (pat repl : List Char) : Nat → List Char → List Char
  | _, [] => []
  | 0, l => l
  | fuel + 1, c :: cs =>
    if pat ≠ [] && pat.isPrefixOf (c :: cs) then
      repl ++ pyReplaceChars pat repl fuel ((c :: cs).drop pat.length)
    else
      c :: pyReplaceChars pat repl fuel cs

def pyReplace (s pat repl : String) : String :=
  String.mk (pyReplaceChars pat.data repl.data s.data.length s.data)

/-- Digit run to a number: helper for `int(str)`. -/
def digitsToNat? (l : List Char) : Option Nat :=
  if l ≠ [] && l.all (·.isDigit) then
    some (l.foldl (fun a c => a * 10 + (c.toNat - 48)) 0)
  else none

/-- Python `int(s)` on a string: optional surrounding whitespace, optional
sign, a non-empty run of decimal digits; anything else raises `ValueError`
(modelled as `none`, the callers decide whether that is caught). -/
def pyInt? (s : String) : Option Int :=
  match (pyStrip s).data with
  | '+' :: ds => (digitsToNat? ds).map Int.ofNat
  | '-' :: ds => (digitsToNat? ds).map (fun n => -(n : Int))
  | ds => (digitsToNat? ds).map Int.ofNat

/-- `str.split()`: split on runs of whitespace, no empty pieces.  The
accumulator holds the current token reversed. -/
def pySplitWSAux : List Char → List Char → List (List Char)
  | [], cur => if cur = [] then [] else [cur.reverse]
  | c :: cs, cur =>
    if pyIsSpace c then
      if cur = [] then pySplitWSAux cs [] else cur.reverse :: pySplitWSAux cs []
    else pySplitWSAux cs (c :: cur)

def pySplitWS (l : List Char) : List (List Char) := pySplitWSAux l []

/-- `re.sub(r"[^\w\s-]", " ", ·)` over characters. -/
def pySubChars (l : List Char) : List Char :=
  l.map (fun c => if isWordChar c || pyIsSpace c || c = '-' then c else ' ')

/-- Control characters removed by `_sanitize`: `[\x00-\x1F\x7F]`. -/
def isCtrlChar (c : Char) : Bool := c.toNat ≤ 31 || c.toNat = 127

/-- `re.sub(r"\s+", " ", ·)`: collapse every whitespace run to one space.
The flag records whether the previous character was whitespace. -/
def collapseWSAux : Bool → List Char → List Char
  | _, [] => []
  | prevWS, c :: cs =>
    if pyIsSpace c then
      if prevWS then collapseWSAux true cs else ' ' :: collapseWSAux true cs
    else c :: collapseWSAux false cs

def collapseWS (l : List Char) : List Char := collapseWSAux false l

/-! ## Stable descending sort

Python `list.sort(key=k, reverse=True)` / `sorted(..., reverse=True)` is a
stable sort placing larger keys first and keeping the original order of
equal keys.  Insertion sort with this insertion rule has exactly that
semantics: an element moves past exactly the strictly-greater elements that
preceded it. -/

def insertDescBy {α β : Type} [LinearOrder β] (key : α → β) (x : α) : List α → List α
  | [] => [x]
  | y :: ys => if key x < key y then y :: insertDescBy key x ys else x :: y :: ys

def sortByDesc {α β : Type} [LinearOrder β] (key : α → β) : List α → List α
  | [] => []
  | x :: xs => insertDescBy key x (sortByDesc key xs)

/-! ## Taxonomy (`taxonomy.py`) -/

/-- `Category`: one node of the IAB Ad Product Taxonomy 2.0 table.  The
Python module stores them as dicts `{"id", "name", "tier", "parent"}`. -/
structure Category where
  id : Nat
  name : String
  tier : Nat
  parent : Option Nat
deriving Repr, DecidableEq

/-- Helper mirroring one taxonomy dict entry `key: \x7b"id", "name", "tier", "parent"\x7d`
(a named helper keeps elaboration of the 136-entry literal linear). -/
def catEntry (key id : Nat) (name : String) (tier : Nat) (parent : Option Nat) :
    Nat × Category := (key, ⟨id, name, tier, parent⟩)

def IAB_AD_PRODUCT_TAXONOMY : List (Nat × Category) := [
  catEntry 1002 1002 "Alcohol" 1 none,
  catEntry 1003 1003 "Bars" 2 (some 1002),
  catEntry 1004 1004 "Beer" 2 (some 1002),
  catEntry 1005 1005 "Hard Sodas, Seltzers, Alco Pops" 2 (some 1002),
  catEntry 1006 1006 "Spirits" 2 (some 1002),
  catEntry 1007 1007 "Wine" 2 (some 1002),
  catEntry 1010 1010 "Business and Industrial" 1 none,
  catEntry 1011 1011 "Advertising and Marketing" 2 (some 1010),
  catEntry 1012 1012 "Business Services" 2 (some 1010),
  catEntry 1020 1020 "Construction" 2 (some 1010),
  catEntry 1025 1025 "Energy Industry" 2 (some 1010),
  catEntry 1030 1030 "Manufacturing" 2 (some 1010),
  catEntry 1040 1040 "Transportation and Logistics" 2 (some 1010),
  catEntry 1045 1045 "Agriculture" 2 (some 1010),
  catEntry 1050 1050 "Cannabis" 1 none,
  catEntry 1051 1051 "CBD Products" 2 (some 1050),
  catEntry 1052 1052 "THC Products" 2 (some 1050),
  catEntry 1055 1055 "Clothing and Accessories" 1 none,
  catEntry 1056 1056 "Womens Apparel" 2 (some 1055),
  catEntry 1057 1057 "Mens Apparel" 2 (some 1055),
  catEntry 1058 1058 "Childrens Apparel" 2 (some 1055),
  catEntry 1060 1060 "Footwear" 2 (some 1055),
  catEntry 1065 1065 "Jewelry" 2 (some 1055),
  catEntry 1070 1070 "Watches" 2 (some 1055),
  catEntry 1075 1075 "Handbags and Accessories" 2 (some 1055),
  catEntry 1080 1080 "Eyewear" 2 (some 1055),
  catEntry 1090 1090 "Computer Software" 1 none,
  catEntry 1091 1091 "Business Software" 2 (some 1090),
  catEntry 1092 1092 "Consumer Software" 2 (some 1090),
  catEntry 1093 1093 "Mobile Apps" 2 (some 1090),
  catEntry 1095 1095 "Video Games" 2 (some 1090),
  catEntry 1100 1100 "Security Software" 2 (some 1090),
  catEntry 1105 1105 "Cloud Services" 2 (some 1090),
  catEntry 1115 1115 "Consumer Electronics" 1 none,
  catEntry 1116 1116 "Computers and Laptops" 2 (some 1115),
  catEntry 1117 1117 "Tablets" 2 (some 1115),
  catEntry 1118 1118 "Smartphones" 2 (some 1115),
  catEntry 1120 1120 "Wearables" 2 (some 1115),
  catEntry 1121 1121 "Smartwatches" 3 (some 1120),
  catEntry 1122 1122 "Fitness Trackers" 3 (some 1120),
  catEntry 1125 1125 "Audio Equipment" 2 (some 1115),
  catEntry 1126 1126 "Headphones" 3 (some 1125),
  catEntry 1127 1127 "Speakers" 3 (some 1125),
  catEntry 1130 1130 "TVs and Displays" 2 (some 1115),
  catEntry 1135 1135 "Cameras and Photography" 2 (some 1115),
  catEntry 1140 1140 "Gaming Hardware" 2 (some 1115),
  catEntry 1145 1145 "Smart Home Devices" 2 (some 1115),
  catEntry 1150 1150 "Consumer Packaged Goods" 1 none,
  catEntry 1151 1151 "Food and Beverages" 2 (some 1150),
  catEntry 1160 1160 "Personal Care" 2 (some 1150),
  catEntry 1170 1170 "Household Products" 2 (some 1150),
  catEntry 1175 1175 "Beauty and Cosmetics" 2 (some 1150),
  catEntry 1180 1180 "Baby Products" 2 (some 1150),
  catEntry 1185 1185 "Pet Food and Supplies" 2 (some 1150),
  catEntry 1210 1210 "Dating" 1 none,
  catEntry 1211 1211 "Dating Services" 2 (some 1210),
  catEntry 1220 1220 "Dieting and Weight Loss" 1 none,
  catEntry 1221 1221 "Diet Programs" 2 (some 1220),
  catEntry 1225 1225 "Durable Goods" 1 none,
  catEntry 1226 1226 "Appliances" 2 (some 1225),
  catEntry 1230 1230 "Furniture" 2 (some 1225),
  catEntry 1240 1240 "Home Improvement" 2 (some 1225),
  catEntry 1260 1260 "Education and Careers" 1 none,
  catEntry 1261 1261 "Colleges and Universities" 2 (some 1260),
  catEntry 1262 1262 "Online Education" 2 (some 1260),
  catEntry 1265 1265 "Job Search" 2 (some 1260),
  catEntry 1340 1340 "Finance and Insurance" 1 none,
  catEntry 1341 1341 "Banking" 2 (some 1340),
  catEntry 1345 1345 "Credit Cards" 2 (some 1340),
  catEntry 1350 1350 "Loans" 2 (some 1340),
  catEntry 1355 1355 "Insurance" 2 (some 1340),
  catEntry 1365 1365 "Investments" 2 (some 1340),
  catEntry 1370 1370 "Retirement Planning" 2 (some 1340),
  catEntry 1390 1390 "Fitness Activities" 1 none,
  catEntry 1391 1391 "Gyms and Fitness Centers" 2 (some 1390),
  catEntry 1395 1395 "Yoga and Pilates" 2 (some 1390),
  catEntry 1410 1410 "Food and Beverage Services" 1 none,
  catEntry 1411 1411 "Restaurants" 2 (some 1410),
  catEntry 1420 1420 "Food Delivery" 2 (some 1410),
  catEntry 1430 1430 "Coffee and Tea" 2 (some 1410),
  catEntry 1435 1435 "Grocery" 2 (some 1410),
  catEntry 1440 1440 "Gambling" 1 none,
  catEntry 1441 1441 "Casinos" 2 (some 1440),
  catEntry 1443 1443 "Sports Betting" 2 (some 1440),
  catEntry 1480 1480 "Health and Medical Services" 1 none,
  catEntry 1481 1481 "Healthcare Providers" 2 (some 1480),
  catEntry 1485 1485 "Dental Services" 2 (some 1480),
  catEntry 1495 1495 "Mental Health Services" 2 (some 1480),
  catEntry 1500 1500 "Telemedicine" 2 (some 1480),
  catEntry 1560 1560 "Media" 1 none,
  catEntry 1561 1561 "Streaming Services" 2 (some 1560),
  catEntry 1565 1565 "News Media" 2 (some 1560),
  catEntry 1570 1570 "Podcasts" 2 (some 1560),
  catEntry 1580 1580 "Movies" 2 (some 1560),
  catEntry 1590 1590 "Music" 2 (some 1560),
  catEntry 1600 1600 "Social Media" 2 (some 1560),
  catEntry 1620 1620 "Non-Fiat Currency" 1 none,
  catEntry 1621 1621 "Cryptocurrency" 2 (some 1620),
  catEntry 1660 1660 "Pet Ownership" 1 none,
  catEntry 1661 1661 "Pet Supplies" 2 (some 1660),
  catEntry 1665 1665 "Veterinary Services" 2 (some 1660),
  catEntry 1680 1680 "Pharmaceuticals" 1 none,
  catEntry 1681 1681 "Prescription Drugs" 2 (some 1680),
  catEntry 1682 1682 "OTC Medications" 2 (some 1680),
  catEntry 1685 1685 "Vitamins and Supplements" 2 (some 1680),
  catEntry 1690 1690 "Pharmacies" 2 (some 1680),
  catEntry 1720 1720 "Real Estate" 1 none,
  catEntry 1721 1721 "Residential Real Estate" 2 (some 1720),
  catEntry 1725 1725 "Commercial Real Estate" 2 (some 1720),
  catEntry 1750 1750 "Retail" 1 none,
  catEntry 1751 1751 "E-commerce" 2 (some 1750),
  catEntry 1752 1752 "Department Stores" 2 (some 1750),
  catEntry 1770 1770 "Sporting Goods" 1 none,
  catEntry 1771 1771 "Fitness Equipment" 2 (some 1770),
  catEntry 1772 1772 "Outdoor Recreation" 2 (some 1770),
  catEntry 1780 1780 "Team Sports Equipment" 2 (some 1770),
  catEntry 1795 1795 "Golf Equipment" 2 (some 1770),
  catEntry 1800 1800 "Tobacco" 1 none,
  catEntry 1801 1801 "Cigarettes" 2 (some 1800),
  catEntry 1803 1803 "Vaping" 2 (some 1800),
  catEntry 1810 1810 "Travel and Tourism" 1 none,
  catEntry 1811 1811 "Airlines" 2 (some 1810),
  catEntry 1812 1812 "Hotels" 2 (some 1810),
  catEntry 1813 1813 "Vacation Rentals" 2 (some 1810),
  catEntry 1815 1815 "Car Rentals" 2 (some 1810),
  catEntry 1820 1820 "Cruises" 2 (some 1810),
  catEntry 1860 1860 "Vehicles" 1 none,
  catEntry 1861 1861 "Automotive" 2 (some 1860),
  catEntry 1870 1870 "Auto Parts" 2 (some 1860),
  catEntry 1875 1875 "Auto Services" 2 (some 1860),
  catEntry 1880 1880 "Motorcycles" 2 (some 1860),
  catEntry 1895 1895 "Bicycles" 2 (some 1860),
  catEntry 1900 1900 "Electric Vehicles" 2 (some 1860),
  catEntry 1920 1920 "Weapons and Ammunition" 1 none,
  catEntry 1921 1921 "Firearms" 2 (some 1920),
  catEntry 1922 1922 "Ammunition" 2 (some 1920)]

/-- `IAB_AD_PRODUCT_TAXONOMY.get(id)` for an integer id (the dict has no
duplicate keys, so first-match association lookup models it). -/
def taxLookupNat (id : Nat) : Option Category := IAB_AD_PRODUCT_TAXONOMY.lookup id

def taxLookupInt (id : Int) : Option Category :=
  if id < 0 then none else taxLookupNat id.toNat

/-- Argument of the Python lookup functions, which accept `int` or `str`. -/
inductive PyIdArg where
  | int (n : Int)
  | str (s : String)

/-- `get_iab_code(id)`: `f"IAB-AP-{id}"`. -/
def get_iab_code (id : Nat) : String := "IAB-AP-" ++ toString id

/-- `get_id_from_code(code)`: parses the `IAB-AP-` form; `int(...)` failures
are caught (`except ValueError: return None`). -/
def get_id_from_code (code : String) : Option Int :=
  if code = "" then none
  else if pyStartsWith code "IAB-AP-" then pyInt? (pyReplace code "IAB-AP-" "")
  else none

/-- `get_category_by_id(id)`.  The source coerces a string argument with a
bare `int(id)` — *not* wrapped in `try`/`except` — so a non-numeric string
makes the call raise `ValueError`, modelled as `Except.error`. -/
def get_category_by_id : PyIdArg → Except String (Option Category)
  | .int n => .ok (taxLookupInt n)
  | .str s =>
    match pyInt? s with
    | some n => .ok (taxLookupInt n)
    | none => .error ("invalid literal for int() with base 10: " ++ s)

/-- `get_category_path(id)` for an integer id: walk `parent` links upward,
prepending.  The Python `while` loop is modelled with fuel; fuel
`taxonomy size + 1` is enough for any walk that terminates (the table is a
forest of depth 3). A parent id of `0` is falsy in Python (`if parent_id`),
hence stops the walk. -/
def pathAux : Nat → Option Category → List Category
  | 0, _ => []
  | _ + 1, none => []
  | fuel + 1, some c =>
    pathAux fuel (match c.parent with
      | some p => if p = 0 then none else taxLookupNat p
      | none => none) ++ [c]

def get_category_path (id : Nat) : List Category :=
  pathAux (IAB_AD_PRODUCT_TAXONOMY.length + 1) (taxLookupNat id)

/-- `get_category_label(id)`: path names joined with `" > "`. -/
def get_category_label (id : Nat) : String :=
  String.intercalate " > " ((get_category_path id).map (·.name))

/-- `get_tier1_parent(id)`: first element of the path. -/
def get_tier1_parent (id : Nat) : Option Category :=
  (get_category_path id).head?

/-- `is_valid_category(id)`: defensive variant that does catch `ValueError`
and understands `IAB-AP-` codes (contrast with `get_category_by_id`). -/
def is_valid_category : PyIdArg → Bool
  | .int n => (taxLookupInt n).isSome
  | .str s =>
    if pyStartsWith s "IAB-AP-" then
      match get_id_from_code s with
      | some n => (taxLookupInt n).isSome
      | none => false
    else
      match pyInt? s with
      | some n => (taxLookupInt n).isSome
      | none => false

/-! ## Keyword matcher (`keyword_mapping.py`) -/

def KEYWORD_MAPPINGS : List (String × Nat) := [
  ("alcohol", 1002), ("alcoholic", 1002), ("liquor", 1002), ("bar", 1003), ("pub", 1003),
  ("nightclub", 1003), ("beer", 1004), ("lager", 1004), ("ale", 1004), ("ipa", 1004),
  ("hard seltzer", 1005), ("seltzer", 1005), ("spirits", 1006), ("whiskey", 1006), ("vodka", 1006),
  ("rum", 1006), ("gin", 1006), ("tequila", 1006), ("wine", 1007), ("champagne", 1007),
  ("prosecco", 1007), ("business", 1010), ("b2b", 1010), ("enterprise", 1010), ("advertising", 1011),
  ("marketing", 1011), ("agency", 1011), ("construction", 1020), ("contractor", 1020), ("energy", 1025),
  ("manufacturing", 1030), ("logistics", 1040), ("agriculture", 1045), ("cannabis", 1050), ("marijuana", 1050),
  ("cbd", 1051), ("thc", 1052), ("clothing", 1055), ("apparel", 1055), ("fashion", 1055),
  ("shoes", 1060), ("footwear", 1060), ("sneakers", 1060), ("boots", 1060), ("jewelry", 1065),
  ("jewellery", 1065), ("necklace", 1065), ("bracelet", 1065), ("watch", 1070), ("watches", 1070),
  ("handbag", 1075), ("purse", 1075), ("sunglasses", 1080), ("eyeglasses", 1080), ("software", 1090),
  ("app", 1090), ("application", 1090), ("saas", 1091), ("crm", 1091), ("erp", 1091),
  ("mobile app", 1093), ("video game", 1095), ("game", 1095), ("gaming", 1095), ("playstation", 1095),
  ("xbox", 1095), ("antivirus", 1100), ("vpn", 1100), ("cloud", 1105), ("aws", 1105),
  ("azure", 1105), ("electronics", 1115), ("gadget", 1115), ("tech", 1115), ("computer", 1116),
  ("laptop", 1116), ("pc", 1116), ("desktop", 1116), ("macbook", 1116), ("tablet", 1117),
  ("ipad", 1117), ("smartphone", 1118), ("phone", 1118), ("iphone", 1118), ("android", 1118),
  ("mobile", 1118), ("wearable", 1120), ("wearables", 1120), ("smartwatch", 1121), ("apple watch", 1121),
  ("fitness tracker", 1122), ("fitbit", 1122), ("headphones", 1126), ("earbuds", 1126), ("airpods", 1126),
  ("speaker", 1127), ("speakers", 1127), ("tv", 1130), ("television", 1130), ("monitor", 1130),
  ("camera", 1135), ("photography", 1135), ("gaming console", 1140), ("ps5", 1140), ("smart home", 1145),
  ("alexa", 1145), ("cpg", 1150), ("fmcg", 1150), ("food", 1151), ("beverage", 1151),
  ("snack", 1151), ("chips", 1151), ("candy", 1151), ("personal care", 1160), ("skincare", 1160),
  ("shampoo", 1160), ("cleaning", 1170), ("detergent", 1170), ("makeup", 1175), ("cosmetics", 1175),
  ("lipstick", 1175), ("baby", 1180), ("diaper", 1180), ("pet food", 1185), ("dog food", 1185),
  ("cat food", 1185), ("dating", 1210), ("dating app", 1211), ("tinder", 1211), ("bumble", 1211),
  ("diet", 1220), ("weight loss", 1220), ("diet program", 1221), ("appliance", 1226), ("refrigerator", 1226),
  ("oven", 1226), ("furniture", 1230), ("sofa", 1230), ("couch", 1230), ("home improvement", 1240),
  ("tools", 1240), ("education", 1260), ("learning", 1260), ("school", 1260), ("college", 1261),
  ("university", 1261), ("online course", 1262), ("coursera", 1262), ("udemy", 1262), ("job", 1265),
  ("career", 1265), ("job search", 1265), ("finance", 1340), ("financial", 1340), ("money", 1340),
  ("bank", 1341), ("banking", 1341), ("credit card", 1345), ("visa", 1345), ("mastercard", 1345),
  ("loan", 1350), ("mortgage", 1350), ("insurance", 1355), ("car insurance", 1355), ("life insurance", 1355),
  ("investment", 1365), ("stock", 1365), ("stocks", 1365), ("trading", 1365), ("retirement", 1370),
  ("401k", 1370), ("fitness", 1390), ("workout", 1390), ("exercise", 1390), ("gym", 1391),
  ("fitness center", 1391), ("yoga", 1395), ("pilates", 1395), ("restaurant", 1411), ("dining", 1411),
  ("fast food", 1411), ("mcdonalds", 1411), ("food delivery", 1420), ("doordash", 1420), ("ubereats", 1420),
  ("coffee", 1430), ("starbucks", 1430), ("grocery", 1435), ("supermarket", 1435), ("gambling", 1440),
  ("casino", 1441), ("betting", 1443), ("sports betting", 1443), ("draftkings", 1443), ("health", 1480),
  ("healthcare", 1480), ("medical", 1480), ("doctor", 1481), ("hospital", 1481), ("clinic", 1481),
  ("dentist", 1485), ("dental", 1485), ("mental health", 1495), ("therapy", 1495), ("therapist", 1495),
  ("telemedicine", 1500), ("telehealth", 1500), ("media", 1560), ("entertainment", 1560), ("streaming", 1561),
  ("netflix", 1561), ("hulu", 1561), ("disney+", 1561), ("news", 1565), ("journalism", 1565),
  ("podcast", 1570), ("podcasts", 1570), ("movie", 1580), ("movies", 1580), ("film", 1580),
  ("music", 1590), ("album", 1590), ("social media", 1600), ("facebook", 1600), ("instagram", 1600),
  ("twitter", 1600), ("tiktok", 1600), ("crypto", 1621), ("cryptocurrency", 1621), ("bitcoin", 1621),
  ("ethereum", 1621), ("pet", 1660), ("pets", 1660), ("pet supplies", 1661), ("pet store", 1661),
  ("vet", 1665), ("veterinarian", 1665), ("pharmaceutical", 1680), ("drug", 1680), ("medication", 1680),
  ("prescription", 1681), ("otc", 1682), ("aspirin", 1682), ("vitamin", 1685), ("vitamins", 1685),
  ("supplement", 1685), ("supplements", 1685), ("pharmacy", 1690), ("cvs", 1690), ("walgreens", 1690),
  ("real estate", 1720), ("property", 1720), ("home for sale", 1721), ("house", 1721), ("zillow", 1721),
  ("apartment", 1721), ("rent", 1721), ("rental", 1721), ("commercial real estate", 1725), ("retail", 1750),
  ("store", 1750), ("shop", 1750), ("ecommerce", 1751), ("e-commerce", 1751), ("amazon", 1751),
  ("department store", 1752), ("sporting goods", 1770), ("sports equipment", 1770), ("fitness equipment", 1771), ("treadmill", 1771),
  ("weights", 1771), ("outdoor", 1772), ("camping", 1772), ("hiking", 1772), ("team sports", 1780),
  ("golf", 1795), ("golf clubs", 1795), ("tobacco", 1800), ("cigarette", 1801), ("cigarettes", 1801),
  ("vape", 1803), ("vaping", 1803), ("e-cigarette", 1803), ("juul", 1803), ("travel", 1810),
  ("vacation", 1810), ("trip", 1810), ("tourism", 1810), ("airline", 1811), ("flight", 1811),
  ("flights", 1811), ("hotel", 1812), ("hotels", 1812), ("marriott", 1812), ("hilton", 1812),
  ("vacation rental", 1813), ("airbnb", 1813), ("vrbo", 1813), ("car rental", 1815), ("hertz", 1815),
  ("cruise", 1820), ("cruises", 1820), ("vehicle", 1860), ("vehicles", 1860), ("car", 1861),
  ("cars", 1861), ("automobile", 1861), ("auto", 1861), ("auto parts", 1870), ("car parts", 1870),
  ("auto repair", 1875), ("mechanic", 1875), ("motorcycle", 1880), ("motorbike", 1880), ("bicycle", 1895),
  ("bike", 1895), ("electric car", 1900), ("ev", 1900), ("tesla", 1900), ("electric vehicle", 1900),
  ("weapon", 1920), ("weapons", 1920), ("gun", 1921), ("firearm", 1921), ("rifle", 1921),
  ("pistol", 1921), ("ammunition", 1922), ("ammo", 1922)]

/-- Category match value: the dicts produced by `map_keyword_to_category`
(`match_count`/`keywords`/`sources` keys are only present on aggregated or
merged entries, hence `Option` with default `none`). -/
structure CatMatch where
  id : Nat
  name : String
  tier : Nat
  parent : Option Nat
  confidence : ℚ
  match_count : Option Nat := none
  keywords : Option (List String) := none
  sources : Option (List String) := none
deriving Repr, DecidableEq

/-- `map_keyword_to_category(keyword)`: lower-case, strip, exact table
lookup, then resolve the category (the `if not category_id` test also
rejects a 0 id, which is falsy in Python). -/
def map_keyword_to_category (keyword : String) : Option CatMatch :=
  if keyword = "" then none
  else
    let normalized := pyStrip (pyToLower keyword)
    match KEYWORD_MAPPINGS.lookup normalized with
    | none => none
    | some category_id =>
      if category_id = 0 then none
      else
        match taxLookupNat category_id with
        | none => none
        | some category =>
          some { id := category.id, name := category.name, tier := category.tier,
                 parent := category.parent, confidence := 0.95 }

/-- One step of the `category_scores` accumulation in
`map_keywords_to_categories`: hit an existing id (update in place) or
append a fresh entry with `match_count = 1`. -/
def scoreStep (acc : List (Nat × CatMatch)) (keyword : String) : List (Nat × CatMatch) :=
  match map_keyword_to_category keyword with
  | none => acc
  | some m =>
    if (acc.lookup m.id).isSome then
      acc.map (fun kv =>
        if kv.1 = m.id then
          (kv.1, { kv.2 with
                   match_count := some (kv.2.match_count.getD 0 + 1),
                   keywords := some (kv.2.keywords.getD [] ++ [keyword]) })
        else kv)
    else acc ++ [(m.id, { m with match_count := some 1, keywords := some [keyword] })]

/-- `map_keywords_to_categories(keywords)`: aggregate per category id,
recompute confidence `min(0.95 + (match_count - 1) * 0.01, 0.99)`, sort by
match count descending (Python's stable sort). -/
def map_keywords_to_categories (keywords : List String) : List CatMatch :=
  if keywords = [] then []
  else
    let category_scores := keywords.foldl scoreStep []
    let results := category_scores.map (·.2)
    let results := results.map (fun cat =>
      { cat with
        confidence := min (0.95 + ((cat.match_count.getD 0 : ℚ) - 1) * 0.01) 0.99 })
    sortByDesc (fun x => x.match_count.getD 0) results

/-- Phase 1 loop of `find_best_match`: first single token with a match. -/
def scanSingles : List (List Char) → Option CatMatch
  | [] => none
  | w :: ws =>
    match map_keyword_to_category (String.mk w) with
    | some m => some m
    | none => scanSingles ws

/-- Phase 2 loop of `find_best_match`: first consecutive two-token phrase
`f"{words[i]} {words[i+1]}"` with a match. -/
def scanPairs : List (List Char) → Option CatMatch
  | w1 :: w2 :: ws =>
    (match map_keyword_to_category (String.mk (w1 ++ ' ' :: w2)) with
     | some m => some m
     | none => scanPairs (w2 :: ws))
  | _ => none

/-- `find_best_match(text)`: tokenize
(`re.sub(r"[^\w\s-]", " ", text.lower()).split()`, drop tokens of length
`<= 2`), then the two scanning phases. -/
def find_best_match (text : String) : Option CatMatch :=
  if text = "" then none
  else
    let words := (pySplitWS (pySubChars (pyToLowerList text.data))).filter (fun w => w.length > 2)
    match scanSingles words with
    | some m => some m
    | none => scanPairs words

/-- `get_keywords_for_category(category_id)` (introspection helper). -/
def get_keywords_for_category (category_id : Nat) : List String :=
  (KEYWORD_MAPPINGS.filter (fun kv => kv.2 = category_id)).map (·.1)

/-! ## Mapper data model (`mapper.py`) -/

/-- Sanitized product dict built by `map_product` (step "Build product dict"). -/
structure Product where
  title : String
  description : String
  category : String
  brand : String
  keywords : List String
deriving Repr, DecidableEq

/-- Secondary category entry of the output envelope. -/
structure SecondaryCat where
  code : String
  id : Nat
  label : String
  confidence : ℚ
deriving Repr, DecidableEq

/-- The `iab_product` object of a success envelope; keys that are only
sometimes present are `Option` with default `none`. -/
structure IabProduct where
  primary : String
  primary_id : Nat
  label : String
  confidence : ℚ
  version : String
  tier1 : Option String := none
  tier1_id : Option Nat := none
  tier1_label : Option String := none
  secondary : Option (List SecondaryCat) := none
  explanation : Option String := none
deriving Repr, DecidableEq

/-- Echoed input of the envelope: `title` and the first 100 characters of
the description (`None` when the description is empty/falsy). -/
structure EchoInput where
  title : String
  description : Option String
deriving Repr, DecidableEq

/-- Result envelope of `map_product` (success or failure shape). -/
structure Envelope where
  success : Bool
  error : Option String := none
  iab_product : Option IabProduct := none
  source : Option String := none
  input : Option EchoInput := none
  cached : Option Bool := none
  latency_ms : Option Nat := none
deriving Repr, DecidableEq

/-- `self.stats` counters of `ProductMapper`. -/
structure Stats where
  requests : Nat := 0
  cache_hits : Nat := 0
  deterministic_matches : Nat := 0
  semantic_matches : Nat := 0
  no_matches : Nat := 0
  errors : Nat := 0
  total_latency_ms : Nat := 0
deriving Repr, DecidableEq

/-- Intermediate result of the three `_map_*` phases:
`{"source": ..., "categories": [...], "error"?: ...}`. -/
structure MapResult where
  source : String
  categories : List CatMatch
  error : Option String := none
deriving Repr, DecidableEq

/-- Return shape of the classifier collaborator's `classify_product`
(`{"success", "categories"?, "error"?}`). -/
structure ClassifyResult where
  success : Bool
  categories : List CatMatch := []
  error : Option String := none

/-- The external classifier collaborator (`client.py`): a call that either
returns a classification result or raises. -/
abbrev Classifier : Type := Product → Except String ClassifyResult

/-- Constructor configuration of `ProductMapper` that the mapping path
reads.  A `CacheManager` is built exactly when `enable_cache` holds (and is
then enabled); the client exists when `enable_semantic` and an api key were
given. -/
structure MapperCfg where
  mapping_mode : String := "hybrid"
  min_confidence : ℚ := 0.3
  iab_version : String := "2.0"
  hasCache : Bool := true
  client : Option Classifier := none

/-- `CONFIDENCE_THRESHOLDS["high"]`. -/
def CONFIDENCE_THRESHOLDS_high : ℚ := 0.9

/-- Python falsiness of an optional string argument (`not x`):
`None` and `""` are falsy. -/
def pyFalsyOptStr : Option String → Bool
  | none => true
  | some s => s = ""

/-- `_sanitize(text, max_length)`: strip control characters, collapse
whitespace runs, strip, truncate. -/
def sanitize (text : Option String) (max_length : Nat) : String :=
  match text with
  | none => ""
  | some t =>
    if t = "" then ""
    else
      let noCtrl := t.data.filter (fun c => ¬ isCtrlChar c)
      let collapsed := collapseWS noCtrl
      String.mk ((pyStripList collapsed).take max_length)

def STOP_WORDS : List String := [
  "a", "an", "the", "and", "or", "but", "in", "on", "at", "to",
  "for", "of", "with", "by", "from", "as", "is", "was", "are", "were",
  "been", "be", "have", "has", "had", "do", "does", "did", "will", "would",
  "this", "that", "these", "those", "it", "its", "they", "them", "what", "which",
  "who", "where", "when", "why", "how", "all", "each", "every", "both", "few",
  "more", "most", "other", "some", "no", "not", "only", "own", "same", "so",
  "than", "too", "very"]

/-- `_extract_keywords(text)`: tokenize like `find_best_match`, drop stop
words and short tokens, count frequencies in first-seen order (dict
insertion order), stable-sort by frequency descending, keep 20. -/
def extract_keywords (text : String) : List String :=
  if text = "" then []
  else
    let words := (pySplitWS (pySubChars (pyToLowerList text.data))).map String.mk
    let words := words.filter (fun w => w.length > 2 && ¬ STOP_WORDS.contains w)
    let freq := words.foldl (fun acc w =>
      match acc.lookup w with
      | some _ =>
        acc.map (fun kv => if kv.1 = w then (kv.1, kv.2 + 1) else kv)
      | none => acc ++ [(w, 1)]) ([] : List (String × Nat))
    ((sortByDesc (fun kv => kv.2) freq).take 20).map (·.1)

/-- Models Python `list(set(xs))` on strings.  CPython's set iteration
order depends on (randomized) string hashes and is not specified; the
embedding fixes it as deduplication preserving first occurrence.  Theorems
whose truth depends on this enumeration order say so. -/
def pyListSet (xs : List String) : List String :=
  xs.foldl (fun acc x => if acc.contains x then acc else acc ++ [x]) []

/-- `_map_deterministic(product, min_confidence)` together with its
`self.stats` updates. -/
def map_deterministic (p : Product) (min_confidence : ℚ) (st : Stats) :
    MapResult × Stats :=
  let all_text := p.title ++ " " ++ p.description ++ " " ++ p.category ++ " " ++ p.brand
  let extracted := extract_keywords all_text
  let all_keywords := pyListSet (p.keywords ++ extracted)
  let kwMatches := map_keywords_to_categories all_keywords
  if kwMatches ≠ [] then
    ({ source := "deterministic",
       categories := kwMatches.filter (fun m => m.confidence ≥ min_confidence) },
     { st with deterministic_matches := st.deterministic_matches + 1 })
  else
    match find_best_match all_text with
    | some direct_match =>
      if direct_match.confidence ≥ min_confidence then
        ({ source := "deterministic", categories := [direct_match] },
         { st with deterministic_matches := st.deterministic_matches + 1 })
      else
        ({ source := "deterministic", categories := [] },
         { st with no_matches := st.no_matches + 1 })
    | none =>
      ({ source := "deterministic", categories := [] },
       { st with no_matches := st.no_matches + 1 })

/-- `_map_semantic(product, min_confidence)`.  Returns the raised error (no
client configured, or a fault of the collaborator call), or the result; the
`Nat` counts classifier invocations.  Stats survive a raise, as the Python
`self.stats` dict mutations do. -/
def map_semantic (client : Option Classifier) (p : Product) (min_confidence : ℚ)
    (st : Stats) : Except String MapResult × Stats × Nat :=
  match client with
  | none => (.error "API client not initialized. API key required for semantic mapping.", st, 0)
  | some classify =>
    match classify p with
    | .error e => (.error e, st, 1)
    | .ok api_result =>
      if api_result.success && api_result.categories ≠ [] then
        (.ok { source := "semantic",
               categories := api_result.categories.filter (fun c => c.confidence ≥ min_confidence) },
         { st with semantic_matches := st.semantic_matches + 1 }, 1)
      else
        (.ok { source := "semantic", categories := [], error := api_result.error },
         { st with no_matches := st.no_matches + 1 }, 1)

/-- One `by_id[...] = value` dict assignment: replace in place (dict
insertion order is kept) or append. -/
def dictSet (acc : List (Nat × CatMatch)) (k : Nat) (v : CatMatch) :
    List (Nat × CatMatch) :=
  if (acc.lookup k).isSome then
    acc.map (fun kv => if kv.1 = k then (kv.1, v) else kv)
  else acc ++ [(k, v)]

/-- The `Add/merge semantic results` loop body of `_merge_results`: an id
already present in `by_id` gets its confidence boosted to
`min(0.99, confidence + 0.1)` and `"semantic"` appended to its sources (in
place); a fresh id is appended tagged `["semantic"]`. -/
def semMergeStep (acc : List (Nat × CatMatch)) (cat : CatMatch) : List (Nat × CatMatch) :=
  if (acc.lookup cat.id).isSome then
    acc.map (fun kv =>
      if kv.1 = cat.id then
        (kv.1, { kv.2 with
                 confidence := min 0.99 (kv.2.confidence + 0.1),
                 sources := some (kv.2.sources.getD [] ++ ["semantic"]) })
      else kv)
  else acc ++ [(cat.id, { cat with sources := some ["semantic"] })]

/-- `_merge_results(deterministic, semantic)`: union by category id with a
confidence boost and both source tags for ids present on both sides, then
Python's stable descending sort by confidence. -/
def merge_results (deterministic semantic : List CatMatch) : List CatMatch :=
  let by_id := deterministic.foldl
    (fun acc cat => dictSet acc cat.id { cat with sources := some ["deterministic"] }) []
  let by_id := semantic.foldl semMergeStep by_id
  sortByDesc (fun x => x.confidence) (by_id.map (·.2))

/-- `_map_hybrid(product, min_confidence)`: deterministic first with the
`>= 0.9` short-circuit, then the semantic merge when a client exists.  The
`Nat` counts classifier invocations. -/
def map_hybrid (client : Option Classifier) (p : Product) (min_confidence : ℚ)
    (st : Stats) : Except String MapResult × Stats × Nat :=
  let det := map_deterministic p min_confidence st
  let deterministic_result := det.1
  let st := det.2
  if deterministic_result.categories ≠ [] &&
      deterministic_result.categories.any (fun c => c.confidence ≥ CONFIDENCE_THRESHOLDS_high) then
    (.ok deterministic_result, st, 0)
  else
    match client with
    | some classify =>
      (match map_semantic (some classify) p min_confidence st with
       | (.error e, st, n) => (.error e, st, n)
       | (.ok semantic_result, st, n) =>
         if semantic_result.categories ≠ [] then
           (.ok { source := "hybrid",
                  categories := merge_results deterministic_result.categories
                    semantic_result.categories }, st, n)
         else
           (.ok { source := "hybrid", categories := deterministic_result.categories }, st, n))
    | none => (.ok { source := "hybrid", categories := deterministic_result.categories }, st, 0)

/-- `_format_result(result, product, include_secondary)`. -/
def format_result (result : MapResult) (p : Product) (include_secondary : Bool)
    (iab_version : String) : Envelope :=
  let echo : EchoInput :=
    { title := p.title,
      description := if p.description = "" then none else some (strTake p.description 100) }
  match result.categories with
  | [] =>
    { success := false, error := some "No matching category found",
      source := some result.source, input := some echo }
  | primary :: rest =>
    let iab : IabProduct :=
      { primary := get_iab_code primary.id, primary_id := primary.id,
        label := get_category_label primary.id, confidence := primary.confidence,
        version := iab_version }
    let iab :=
      match get_tier1_parent primary.id with
      | some tier1 =>
        if tier1.id ≠ primary.id then
          { iab with
            tier1 := some (get_iab_code tier1.id), tier1_id := some tier1.id,
            tier1_label := some tier1.name }
        else iab
      | none => iab
    let iab :=
      if include_secondary && rest ≠ [] then
        { iab with
          secondary := some ((rest.take 3).map (fun cat =>
            { code := get_iab_code cat.id, id := cat.id,
              label := get_category_label cat.id, confidence := cat.confidence })) }
      else iab
    let iab :=
      if result.source = "deterministic" && primary.keywords.getD [] ≠ [] then
        { iab with
          explanation := some ("Matched keywords: " ++
            String.intercalate ", " (primary.keywords.getD [])) }
      else if result.source = "semantic" then
        { iab with explanation := some "Semantic classification based on product content" }
      else if result.source = "hybrid" then
        { iab with explanation := some "Combined deterministic and semantic classification" }
      else iab
    { success := true, iab_product := some iab, source := some result.source,
      input := some echo }

/-! ## Cache (`cache.py`) -/

/-- The `cachetools.TTLCache` store behind `CacheManager`, through its
get/set contract (expiry makes entries absent; it never changes a present
entry's value). -/
abbrev Cache : Type := List (String × Envelope)

/-- `CacheManager._make_key`. -/
def cache_make_key (key : String) : String := "mixpeek_iab_ap_" ++ key

/-- `CacheManager.get` (the mapper only builds enabled managers). -/
def cache_get (c : Cache) (key : String) : Option Envelope :=
  c.lookup (cache_make_key key)

/-- `CacheManager.set`. -/
def cache_set (c : Cache) (key : String) (value : Envelope) : Cache :=
  if (c.lookup (cache_make_key key)).isSome then
    c.map (fun kv => if kv.1 = cache_make_key key then (kv.1, value) else kv)
  else c ++ [(cache_make_key key, value)]

/-- The normalized triple `create_cache_key` serializes and hashes:
`{"title": title.lower().strip()[:100], "description":
description.lower().strip()[:200], "category": category.lower().strip()}`. -/
def cacheKeyTriple (p : Product) : String × String × String :=
  (strTake (pyStrip (pyToLower p.title)) 100,
   strTake (pyStrip (pyToLower p.description)) 200,
   pyStrip (pyToLower p.category))

/-- `create_cache_key(input_data)`.  `json.dumps(..., sort_keys=True)`
followed by `hashlib.md5(...).hexdigest()` is an external, deterministic
function of the normalized triple; it is the `fingerprint` parameter. -/
def create_cache_key (fingerprint : String × String × String → String)
    (p : Product) : String :=
  fingerprint (cacheKeyTriple p)

/-! ## `ProductMapper.map_product` -/

/-- The sanitized product dict `map_product` builds before caching and
dispatch (`title`/`description` sanitized and truncated, `category`/`brand`
defaulted with `or ""` and stripped, `keywords` defaulted with `or []`). -/
def built_product (title description category brand : Option String)
    (keywords : Option (List String)) : Product :=
  { title := sanitize title 500,
    description := sanitize description 2000,
    category := pyStrip (category.getD ""),
    brand := pyStrip (brand.getD ""),
    keywords := keywords.getD [] }

/-- The mode dispatch inside the `try` block of `map_product` (returns the
raised error, if any, plus the stats as mutated so far and the classifier
call count). -/
def mode_dispatch (cfg : MapperCfg) (p : Product) (use_mode : String)
    (use_confidence : ℚ) (st : Stats) : Except String MapResult × Stats × Nat :=
  if use_mode = "deterministic" then
    let r := map_deterministic p use_confidence st
    (.ok r.1, r.2, 0)
  else if use_mode = "semantic" then
    map_semantic cfg.client p use_confidence st
  else
    map_hybrid cfg.client p use_confidence st

/-- `map_product(...)`.  `latency` stands for the measured
`int((time.time() - start_time) * 1000)`; `fingerprint` for the md5/json
fingerprint (see `create_cache_key`).  Returns the envelope, the updated
stats and the updated cache store. -/
def map_product (cfg : MapperCfg) (fingerprint : String × String × String → String)
    (latency : Nat) (st : Stats) (cache : Cache)
    (title description category brand : Option String)
    (keywords : Option (List String)) (mode : Option String)
    (min_confidence : Option ℚ) (include_secondary : Bool) :
    Envelope × Stats × Cache :=
  let st := { st with requests := st.requests + 1 }
  if pyFalsyOptStr title && pyFalsyOptStr description then
    ({ success := false, error := some "At least title or description is required" },
     { st with errors := st.errors + 1 }, cache)
  else
    let product := built_product title description category brand keywords
    let cache_key := create_cache_key fingerprint product
    match (if cfg.hasCache then cache_get cache cache_key else none) with
    | some cached =>
      ({ cached with cached := some true, latency_ms := some latency },
       { st with cache_hits := st.cache_hits + 1 }, cache)
    | none =>
      let use_mode := match mode with
        | some m => if m = "" then cfg.mapping_mode else m
        | none => cfg.mapping_mode
      let use_confidence := min_confidence.getD cfg.min_confidence
      match mode_dispatch cfg product use_mode use_confidence st with
      | (.error e, st, _) =>
        ({ success := false, error := some e, latency_ms := some latency },
         { st with errors := st.errors + 1 }, cache)
      | (.ok result, st, _) =>
        let formatted := format_result result product include_secondary cfg.iab_version
        let cache' := if cfg.hasCache && formatted.success then
            cache_set cache cache_key formatted
          else cache
        let st := { st with total_latency_ms := st.total_latency_ms + latency }
        ({ formatted with cached := some false, latency_ms := some latency },
         st, cache')


/-! ## Specification-side definitions (for refinement claims) -/


/-- Spec-side single-keyword hit: an exact keyword-table hit, resolved
through the taxonomy (the keyword matcher contract of the spec). -/
def matchKeywordSpec (w : List Char) : Option CatMatch :=
  (KEYWORD_MAPPINGS.lookup (String.mk w)).bind fun category_id =>
    (taxLookupNat category_id).map fun category =>
      { id := category.id, name := category.name, tier := category.tier,
        parent := category.parent, confidence := 0.95 }

/-- Consecutive pairs of a list, left to right. -/
def adjacentPairs {α : Type} : List α → List (α × α)
  | a :: b :: rest => (a, b) :: adjacentPairs (b :: rest)
  | _ => []

/-- `findBestMatch` as the specification words it: tokenize (replace
non-word/non-space/non-hyphen characters with spaces, lower-case, split on
whitespace, drop tokens of length `<= 2`), scan single tokens left to right
for the first exact keyword hit, then consecutive two-token phrases, else
absent. -/
def find_best_match_spec (text : String) : Option CatMatch :=
  let toks := (pySplitWS (pyToLowerList (pySubChars text.data))).filter (fun w => w.length > 2)
  match toks.findSome? matchKeywordSpec with
  | some m => some m
  | none => (adjacentPairs toks).findSome? (fun pr => matchKeywordSpec (pr.1 ++ ' ' :: pr.2))

/-- The merged union as the specification words it: every deterministic
entry, boosted and double-tagged when the semantic side also has its id;
then the semantic-only entries, in order, singly tagged. -/
def merged_union (deterministic semantic : List CatMatch) : List CatMatch :=
  deterministic.map (fun c =>
    if semantic.any (fun x => x.id = c.id) then
      { c with confidence := min 0.99 (c.confidence + 0.1),
               sources := some ["deterministic", "semantic"] }
    else { c with sources := some ["deterministic"] }) ++
  (semantic.filter (fun c => ¬ deterministic.any (fun x => x.id = c.id))).map
    (fun c => { c with sources := some ["semantic"] })

/-! ## Witness fixtures: concrete mappers, products and caches -/

def detOnlyCfg : MapperCfg := { mapping_mode := "deterministic" }

/-- A mapper configured for semantic mode whose classifier collaborator
raises on every call. -/
def semBoomCfg : MapperCfg :=
  { mapping_mode := "semantic", client := some (fun _ => .error "boom") }

/-- A stand-in for the md5/json fingerprint (any deterministic function of
the normalized triple). -/
def trivialFingerprint : String × String × String → String := fun _ => "fp"

def shortCircuitClassifier : Classifier := fun _ => .ok { success := false }

def smartphoneProduct : Product :=
  { title := "smartphone", description := "", category := "", brand := "", keywords := [] }

def hitEnvelope : Envelope := { success := true }

def detSample : List CatMatch := [
  { id := 1118, name := "Smartphones", tier := 2, parent := some 1115, confidence := 0.95 },
  { id := 1130, name := "TVs and Displays", tier := 2, parent := some 1115, confidence := 0.4 }]

def semSample : List CatMatch := [
  { id := 1130, name := "TVs and Displays", tier := 2, parent := some 1115, confidence := 0.8 },
  { id := 1812, name := "Hotels", tier := 2, parent := some 1810, confidence := 0.7 }]

/-! ## Helper lemmas -/

theorem toNat_ofNat_valid (n : Nat) (h : n < 55296) : (Char.ofNat n).toNat = n := by
  unfold Char.ofNat
  rw [dif_pos (Or.inl h)]
  rfl

theorem toNat_toLowerChar (c : Char) :
    (toLowerChar c).toNat = if 65 ≤ c.toNat ∧ c.toNat ≤ 90 then c.toNat + 32 else c.toNat := by
  unfold toLowerChar
  by_cases h : 65 ≤ c.toNat ∧ c.toNat ≤ 90
  · rw [if_pos h]
    have hb : (65 ≤ c.toNat && c.toNat ≤ 90) = true := by
      simp [h.1, h.2]
    rw [hb]
    simp only [if_true]
    exact toNat_ofNat_valid _ (by omega)
  · have hb : (65 ≤ c.toNat && c.toNat ≤ 90) = true → False := by
      intro hb
      simp only [Bool.and_eq_true, decide_eq_true_eq] at hb
      exact h hb
    rw [if_neg h]
    cases hcond : (65 ≤ c.toNat && c.toNat ≤ 90) with
    | true => exact absurd hcond hb
    | false => simp

theorem toLowerChar_eq_self (c : Char) (h : ¬ (65 ≤ c.toNat ∧ c.toNat ≤ 90)) :
    toLowerChar c = c := by
  unfold toLowerChar
  cases hcond : (65 ≤ c.toNat && c.toNat ≤ 90) with
  | true => simp only [Bool.and_eq_true, decide_eq_true_eq] at hcond; exact absurd hcond h
  | false => simp

theorem char_eq_toNat {c d : Char} (h : c = d) : c.toNat = d.toNat := congrArg Char.toNat h

theorem char_ne_of_toNat_ne {c d : Char} (h : c.toNat ≠ d.toNat) : c ≠ d :=
  fun he => h (char_eq_toNat he)

theorem pyIsSpace_eq_false_of_toNat (c : Char)
    (h : c.toNat ≠ 32 ∧ c.toNat ≠ 9 ∧ c.toNat ≠ 10 ∧ c.toNat ≠ 13 ∧ c.toNat ≠ 11 ∧ c.toNat ≠ 12) :
    pyIsSpace c = false := by
  unfold pyIsSpace
  obtain ⟨h1, h2, h3, h4, h5, h6⟩ := h
  rw [decide_eq_false (char_ne_of_toNat_ne (by simpa using h1)),
      decide_eq_false (char_ne_of_toNat_ne (by simpa using h2)),
      decide_eq_false (char_ne_of_toNat_ne (by simpa using h3)),
      decide_eq_false (char_ne_of_toNat_ne (by simpa using h4)),
      decide_eq_false (char_ne_of_toNat_ne (by simpa [toNat_ofNat_valid] using h5)),
      decide_eq_false (char_ne_of_toNat_ne (by simpa [toNat_ofNat_valid] using h6))]
  rfl

theorem pyIsSpace_toLowerChar (c : Char) : pyIsSpace (toLowerChar c) = pyIsSpace c := by
  by_cases h : 65 ≤ c.toNat ∧ c.toNat ≤ 90
  · have hl : (toLowerChar c).toNat = c.toNat + 32 := by rw [toNat_toLowerChar, if_pos h]
    rw [pyIsSpace_eq_false_of_toNat _ (by omega), pyIsSpace_eq_false_of_toNat _ (by omega)]
  · rw [toLowerChar_eq_self c h]

theorem isWordChar_toLowerChar (c : Char) : isWordChar (toLowerChar c) = isWordChar c := by
  by_cases h : 65 ≤ c.toNat ∧ c.toNat ≤ 90
  · have hl : (toLowerChar c).toNat = c.toNat + 32 := by rw [toNat_toLowerChar, if_pos h]
    unfold isWordChar
    rw [hl]
    have e1 : (97 ≤ c.toNat + 32) = True := by simp; omega
    have e2 : (c.toNat + 32 ≤ 122) = True := by simp; omega
    have e3 : (97 ≤ c.toNat) = False := by simp; omega
    simp [e1, e2, e3]
    omega
  · rw [toLowerChar_eq_self c h]

theorem hyphen_toLowerChar (c : Char) : (decide (toLowerChar c = '-')) = (decide (c = '-')) := by
  by_cases h : 65 ≤ c.toNat ∧ c.toNat ≤ 90
  · have hl : (toLowerChar c).toNat = c.toNat + 32 := by rw [toNat_toLowerChar, if_pos h]
    rw [decide_eq_false (char_ne_of_toNat_ne (by rw [hl]; show c.toNat + 32 ≠ 45; omega)),
        decide_eq_false (char_ne_of_toNat_ne (show c.toNat ≠ 45 by omega))]
  · rw [toLowerChar_eq_self c h]

theorem toLowerChar_toLowerChar (c : Char) :
    toLowerChar (toLowerChar c) = toLowerChar c := by
  by_cases h : 65 ≤ c.toNat ∧ c.toNat ≤ 90
  · have hl : (toLowerChar c).toNat = c.toNat + 32 := by rw [toNat_toLowerChar, if_pos h]
    exact toLowerChar_eq_self _ (by omega)
  · rw [toLowerChar_eq_self c h, toLowerChar_eq_self c h]

theorem keep_toLowerChar (c : Char) :
    (isWordChar (toLowerChar c) || pyIsSpace (toLowerChar c) || decide (toLowerChar c = '-')) =
    (isWordChar c || pyIsSpace c || decide (c = '-')) := by
  rw [isWordChar_toLowerChar, pyIsSpace_toLowerChar, hyphen_toLowerChar]

theorem nonkeep_lower_fixed (c : Char)
    (h : (isWordChar c || pyIsSpace c || decide (c = '-')) = false) : toLowerChar c = c := by
  apply toLowerChar_eq_self
  intro hup
  have hw : isWordChar c = true := by
    unfold isWordChar
    simp only [Bool.or_eq_true, Bool.and_eq_true, decide_eq_true_eq]
    omega
  simp [hw] at h

theorem subChar_comm_lower (c : Char) :
    (if isWordChar (toLowerChar c) || pyIsSpace (toLowerChar c) || toLowerChar c = '-' then toLowerChar c else ' ') =
    toLowerChar (if isWordChar c || pyIsSpace c || c = '-' then c else ' ') := by
  rw [show (isWordChar (toLowerChar c) || pyIsSpace (toLowerChar c) || decide (toLowerChar c = '-')) =
      (isWordChar c || pyIsSpace c || decide (c = '-')) from keep_toLowerChar c]
  cases hc : (isWordChar c || pyIsSpace c || decide (c = '-')) with
  | true => simp
  | false =>
    simp only [Bool.false_eq_true, if_false]
    exact (show toLowerChar ' ' = ' ' by decide).symm

theorem pySubChars_comm_lower (l : List Char) :
    pySubChars (pyToLowerList l) = pyToLowerList (pySubChars l) := by
  unfold pySubChars pyToLowerList
  rw [List.map_map, List.map_map]
  apply List.map_congr_left
  intro c _
  exact subChar_comm_lower c

theorem pySplitWSAux_mem (p : Char → Prop) (l : List Char) :
    ∀ (cur : List Char), (∀ c ∈ l, p c) → (∀ c ∈ cur, p c ∧ pyIsSpace c = false) →
      ∀ w ∈ pySplitWSAux l cur, w ≠ [] ∧ ∀ c ∈ w, p c ∧ pyIsSpace c = false := by
  induction l with
  | nil =>
    intro cur _ hcur w hw
    unfold pySplitWSAux at hw
    by_cases hc : cur = []
    · simp [hc] at hw
    · rw [if_neg hc] at hw
      simp only [List.mem_singleton] at hw
      subst hw
      refine ⟨by simpa using hc, ?_⟩
      intro c hcmem
      exact hcur c (List.mem_reverse.mp hcmem)
  | cons a as ih =>
    intro cur hl hcur w hw
    have hl' : ∀ c ∈ as, p c := fun c hc => hl c (List.mem_cons_of_mem a hc)
    unfold pySplitWSAux at hw
    by_cases hsp : pyIsSpace a = true
    · rw [if_pos hsp] at hw
      by_cases hc : cur = []
      · rw [if_pos hc] at hw
        exact ih [] hl' (by simp) w hw
      · rw [if_neg hc] at hw
        rcases List.mem_cons.mp hw with hw | hw
        · subst hw
          refine ⟨by simpa using hc, ?_⟩
          intro c hcmem
          exact hcur c (List.mem_reverse.mp hcmem)
        · exact ih [] hl' (by simp) w hw
    · rw [if_neg hsp] at hw
      refine ih (a :: cur) hl' ?_ w hw
      intro c hc
      rcases List.mem_cons.mp hc with rfl | hc
      · exact ⟨hl c (List.mem_cons_self c as), Bool.not_eq_true _ ▸ hsp⟩
      · exact hcur c hc

theorem pySplitWS_tokens (p : Char → Prop) (l : List Char) (hl : ∀ c ∈ l, p c) :
    ∀ w ∈ pySplitWS l, w ≠ [] ∧ ∀ c ∈ w, p c ∧ pyIsSpace c = false :=
  pySplitWSAux_mem p l [] hl (by simp)

theorem dropWhile_eq_self_of_all {pred : Char → Bool} (l : List Char)
    (h : ∀ c ∈ l, pred c = false) : l.dropWhile pred = l := by
  cases l with
  | nil => rfl
  | cons a as =>
    rw [List.dropWhile_cons, h a (List.mem_cons_self a as)]
    simp

theorem pyStripList_eq_self_of_all (l : List Char) (h : ∀ c ∈ l, pyIsSpace c = false) :
    pyStripList l = l := by
  unfold pyStripList
  rw [dropWhile_eq_self_of_all l h,
      dropWhile_eq_self_of_all l.reverse (fun c hc => h c (List.mem_reverse.mp hc)),
      List.reverse_reverse]

theorem pyStripList_phrase (w1 w2 : List Char) (h1 : w1 ≠ []) (h2 : w2 ≠ [])
    (ha : ∀ c ∈ w1, pyIsSpace c = false) (hb : ∀ c ∈ w2, pyIsSpace c = false) :
    pyStripList (w1 ++ ' ' :: w2) = w1 ++ ' ' :: w2 := by
  obtain ⟨a, t1, rfl⟩ : ∃ a t1, w1 = a :: t1 := by
    cases w1 with
    | nil => exact absurd rfl h1
    | cons x xs => exact ⟨x, xs, rfl⟩
  rcases List.eq_nil_or_concat w2 with rfl | ⟨t2, b, rfl⟩
  · exact absurd rfl h2
  simp only [List.concat_eq_append] at hb ⊢
  unfold pyStripList
  rw [List.cons_append, List.dropWhile_cons,
      ha a (List.mem_cons_self a t1)]
  simp only [Bool.false_eq_true, if_false]
  have hrev : (a :: (t1 ++ ' ' :: (t2 ++ [b]))).reverse =
      b :: ((t2.reverse ++ ' ' :: t1.reverse) ++ [a]) := by
    simp
  rw [hrev, List.dropWhile_cons, hb b (by simp)]
  simp only [Bool.false_eq_true, if_false]
  rw [← hrev, List.reverse_reverse]

theorem mkc_eq_spec (w : List Char) (hstrip : pyStripList w = w)
    (hlow : ∀ c ∈ w, toLowerChar c = c) :
    map_keyword_to_category (String.mk w) = matchKeywordSpec w := by
  unfold map_keyword_to_category matchKeywordSpec
  by_cases hw : String.mk w = ""
  · have hwnil : w = [] := by
      have := congrArg String.data hw
      simpa using this
    subst hwnil
    rw [if_pos hw]
    rfl
  · rw [if_neg hw]
    have hlower : pyToLower (String.mk w) = String.mk w := by
      unfold pyToLower pyToLowerList
      congr 1
      calc (String.mk w).data.map toLowerChar = w.map toLowerChar := rfl
        _ = w := by
              rw [List.map_congr_left hlow]
              exact List.map_id w
    have hstr : pyStrip (pyToLower (String.mk w)) = String.mk w := by
      rw [hlower]
      unfold pyStrip
      rw [show (String.mk w).data = w from rfl, hstrip]
    simp only [hstr]
    cases hk : KEYWORD_MAPPINGS.lookup (String.mk w) with
    | none => simp only [hk]; rfl
    | some category_id =>
      simp only [hk]
      by_cases h0 : category_id = 0
      · subst h0
        rw [if_pos rfl]
        simp [show taxLookupNat 0 = none by decide]
      · rw [if_neg h0]
        cases htax : taxLookupNat category_id with
        | none => simp [htax]
        | some category => simp [htax]

theorem adjacentPairs_mem {α : Type} :
    ∀ (l : List α) (pr : α × α), pr ∈ adjacentPairs l → pr.1 ∈ l ∧ pr.2 ∈ l
  | a :: b :: rest, pr, h => by
    unfold adjacentPairs at h
    rcases List.mem_cons.mp h with rfl | h
    · exact ⟨List.mem_cons_self _ _, List.mem_cons_of_mem _ (List.mem_cons_self _ _)⟩
    · have := adjacentPairs_mem (b :: rest) pr h
      exact ⟨List.mem_cons_of_mem _ this.1, List.mem_cons_of_mem _ this.2⟩
  | [], _, h => by simp [adjacentPairs] at h
  | [_], _, h => by simp [adjacentPairs] at h

theorem scanSingles_eq_findSome (ws : List (List Char))
    (h : ∀ w ∈ ws, map_keyword_to_category (String.mk w) = matchKeywordSpec w) :
    scanSingles ws = ws.findSome? matchKeywordSpec := by
  induction ws with
  | nil => rfl
  | cons w ws ih =>
    unfold scanSingles
    rw [h w (List.mem_cons_self w ws), List.findSome?_cons]
    cases matchKeywordSpec w with
    | some m => rfl
    | none => exact ih (fun x hx => h x (List.mem_cons_of_mem w hx))

theorem scanPairs_eq_findSome (ws : List (List Char))
    (h : ∀ pr ∈ adjacentPairs ws, map_keyword_to_category (String.mk (pr.1 ++ ' ' :: pr.2)) =
      matchKeywordSpec (pr.1 ++ ' ' :: pr.2)) :
    scanPairs ws = (adjacentPairs ws).findSome?
      (fun pr => matchKeywordSpec (pr.1 ++ ' ' :: pr.2)) := by
  induction ws with
  | nil => rfl
  | cons w1 rest ih =>
    cases rest with
    | nil => rfl
    | cons w2 ws' =>
      show (match map_keyword_to_category (String.mk (w1 ++ ' ' :: w2)) with
        | some m => some m
        | none => scanPairs (w2 :: ws')) = _
      rw [show adjacentPairs (w1 :: w2 :: ws') = (w1, w2) :: adjacentPairs (w2 :: ws') from rfl,
        List.findSome?_cons]
      rw [h (w1, w2) (by simp [adjacentPairs])]
      cases matchKeywordSpec (w1 ++ ' ' :: w2) with
      | some m => rfl
      | none =>
        exact ih (fun pr hpr => h pr (by simp [adjacentPairs, hpr]))

theorem lookup_none_iff_not_key (j : Nat) :
    ∀ l : List (Nat × CatMatch), l.lookup j = none ↔ j ∉ l.map (·.1) := by
  intro l
  induction l with
  | nil => simp [List.lookup]
  | cons kv l ih =>
    obtain ⟨k, v⟩ := kv
    by_cases hjk : j = k
    · subst hjk
      simp [List.lookup]
    · have hb : (j == k) = false := beq_false_of_ne hjk
      simp [List.lookup, hb, hjk, ih]

theorem det_fold (d : List CatMatch) : ∀ acc : List (Nat × CatMatch),
    (∀ c ∈ d, acc.lookup c.id = none) → (d.map (·.id)).Nodup →
    d.foldl (fun a cat => dictSet a cat.id { cat with sources := some ["deterministic"] }) acc =
      acc ++ d.map (fun c => (c.id, { c with sources := some ["deterministic"] })) := by
  induction d with
  | nil => intro acc _ _; simp
  | cons c d ih =>
    intro acc hacc hnd
    rw [List.foldl_cons]
    have hset : dictSet acc c.id { c with sources := some ["deterministic"] } =
        acc ++ [(c.id, { c with sources := some ["deterministic"] })] := by
      unfold dictSet
      rw [hacc c (List.mem_cons_self c d)]
      simp
    rw [hset]
    have hnd' : (d.map (·.id)).Nodup := (List.nodup_cons.mp (by simpa using hnd)).2
    have hcd : c.id ∉ d.map (·.id) := (List.nodup_cons.mp (by simpa using hnd)).1
    have h1 : ∀ x ∈ d, (acc ++ [(c.id, { c with sources := some ["deterministic"] })]).lookup x.id = none := by
      intro x hx
      rw [lookup_none_iff_not_key]
      simp only [List.map_append, List.mem_append, List.map_cons, List.map_nil,
        List.mem_singleton, not_or]
      refine ⟨(lookup_none_iff_not_key x.id acc).mp (hacc x (List.mem_cons_of_mem c hx)), ?_⟩
      intro hxc
      exact hcd (hxc ▸ List.mem_map_of_mem (·.id) hx)
    rw [ih _ h1 hnd']
    simp [List.append_assoc]

theorem boost_keys (acc : List (Nat × CatMatch)) (k : Nat) :
    (acc.map (fun kv =>
      if kv.1 = k then
        (kv.1, { kv.2 with
                 confidence := min 0.99 (kv.2.confidence + 0.1),
                 sources := some (kv.2.sources.getD [] ++ ["semantic"]) })
      else kv)).map (·.1) = acc.map (·.1) := by
  rw [List.map_map]
  apply List.map_congr_left
  intro kv _
  by_cases hk : kv.1 = k
  · simp [hk]
  · simp [hk]

theorem sem_fold (s : List CatMatch) : ∀ acc : List (Nat × CatMatch),
    (s.map (·.id)).Nodup →
    s.foldl semMergeStep acc =
      acc.map (fun kv =>
        if s.any (fun c => c.id = kv.1) then
          (kv.1, { kv.2 with
                   confidence := min 0.99 (kv.2.confidence + 0.1),
                   sources := some (kv.2.sources.getD [] ++ ["semantic"]) })
        else kv) ++
      (s.filter (fun c => (acc.lookup c.id) = none)).map
        (fun c => (c.id, { c with sources := some ["semantic"] })) := by
  induction s with
  | nil =>
    intro acc _
    simp
  | cons c s ih =>
    intro acc hnd
    have hnd' : (s.map (·.id)).Nodup := (List.nodup_cons.mp (by simpa using hnd)).2
    have hcs : c.id ∉ s.map (·.id) := (List.nodup_cons.mp (by simpa using hnd)).1
    have hanyc : s.any (fun x => x.id = c.id) = false := by
      rw [List.any_eq_false]
      intro x hx
      simp only [decide_eq_true_eq]
      intro hxc
      exact hcs (hxc ▸ List.mem_map_of_mem (·.id) hx)
    rw [List.foldl_cons]
    by_cases hit : (acc.lookup c.id).isSome = true
    · rw [show semMergeStep acc c =
        acc.map (fun kv =>
            if kv.1 = c.id then
              (kv.1, { kv.2 with
                       confidence := min 0.99 (kv.2.confidence + 0.1),
                       sources := some (kv.2.sources.getD [] ++ ["semantic"]) })
            else kv) by unfold semMergeStep; rw [if_pos hit]]
      rw [ih _ hnd']
      congr 1
      · rw [List.map_map]
        apply List.map_congr_left
        intro kv _
        by_cases hk : kv.1 = c.id
        · simp only [Function.comp]
          simp only [if_pos hk]
          have h1 : (s.any fun x => decide (x.id = kv.1)) = false := by
            rw [hk]
            exact hanyc
          have h2 : ((c :: s).any fun x => decide (x.id = kv.1)) = true := by
            simp [List.any_cons, hk]
          rw [h1, h2]
          simp
        · simp only [Function.comp]
          simp only [if_neg hk]
          have hck : (decide (c.id = kv.1)) = false := by
            apply decide_eq_false
            intro h
            exact hk h.symm
          simp [List.any_cons, hck]
      · have hfc : (acc.lookup c.id = none) = False := by
          simp only [eq_iff_iff, iff_false]
          intro h
          rw [h] at hit
          simp at hit
        rw [List.filter_cons]
        simp only [hfc, decide_False, if_false]
        refine congrArg (List.map _) (List.filter_congr ?_)
        intro x hx
        apply decide_eq_decide.mpr
        rw [lookup_none_iff_not_key, lookup_none_iff_not_key, boost_keys]
    · rw [show semMergeStep acc c =
        acc ++ [(c.id, { c with sources := some ["semantic"] })] by
          unfold semMergeStep; rw [if_neg hit]]
      have hmiss : acc.lookup c.id = none := by
        cases hv : acc.lookup c.id with
        | none => rfl
        | some v => rw [hv] at hit; simp at hit
      have hckey : c.id ∉ acc.map (·.1) := (lookup_none_iff_not_key c.id acc).mp hmiss
      rw [ih _ hnd']
      rw [List.map_append]
      rw [List.append_assoc]
      congr 1
      · apply List.map_congr_left
        intro kv hkv
        have hck : (c.id = kv.1) = False := by
          simp only [eq_iff_iff, iff_false]
          intro h
          exact hckey (h ▸ List.mem_map_of_mem (·.1) hkv)
        simp [List.any_cons, hck]
      · rw [List.filter_cons]
        have hpc : decide (acc.lookup c.id = none) = true := by simp [hmiss]
        simp only [hpc, if_true]
        rw [List.map_cons]
        rw [List.map_cons]
        simp only [List.singleton_append, List.cons_append]
        congr 1
        · rw [hanyc]
          simp
        · refine congrArg (List.map _) (List.filter_congr ?_)
          intro x hx
          apply decide_eq_decide.mpr
          rw [lookup_none_iff_not_key, lookup_none_iff_not_key]
          simp only [List.map_append, List.mem_append, List.map_cons, List.map_nil,
            List.mem_singleton, not_or]
          have hxc : ¬ x.id = c.id := by
            intro h
            exact hcs (h ▸ List.mem_map_of_mem (·.id) hx)
          constructor
          · intro h
            exact h.1
          · intro h
            exact ⟨h, hxc⟩

theorem chain_insertDescBy {α β : Type} [LinearOrder β] (key : α → β) (x : α) :
    ∀ l : List α, l.Chain' (fun a b => key b ≤ key a) →
      (insertDescBy key x l).Chain' (fun a b => key b ≤ key a) := by
  intro l
  induction l with
  | nil => intro _; simp [insertDescBy]
  | cons y ys ih =>
    intro h
    unfold insertDescBy
    by_cases hxy : key x < key y
    · rw [if_pos hxy]
      have hins := ih (h.tail)
      rw [List.chain'_cons']
      refine ⟨?_, hins⟩
      intro b hb
      cases ys with
      | nil =>
        simp only [insertDescBy, List.head?_cons, Option.mem_some_iff] at hb
        subst hb
        exact le_of_lt hxy
      | cons z zs =>
        by_cases hxz : key x < key z
        · have hb' : b = z := by
            simp only [insertDescBy, if_pos hxz, List.head?_cons, Option.mem_some_iff] at hb
            exact hb.symm
          subst hb'
          exact (List.chain'_cons.mp h).1
        · have hb' : b = x := by
            simp only [insertDescBy, if_neg hxz, List.head?_cons, Option.mem_some_iff] at hb
            exact hb.symm
          subst hb'
          exact le_of_lt hxy
    · rw [if_neg hxy]
      rw [List.chain'_cons]
      exact ⟨le_of_not_lt hxy, h⟩

theorem chain_sortByDesc {α β : Type} [LinearOrder β] (key : α → β) :
    ∀ l : List α, (sortByDesc key l).Chain' (fun a b => key b ≤ key a) := by
  intro l
  induction l with
  | nil => simp [sortByDesc]
  | cons x xs ih =>
    unfold sortByDesc
    exact chain_insertDescBy key x _ ih

theorem map_deterministic_source (p : Product) (m : ℚ) (st : Stats) :
    (map_deterministic p m st).1.source = "deterministic" := by
  unfold map_deterministic
  dsimp only
  split
  · rfl
  · split
    · split
      · rfl
      · rfl
    · rfl

theorem scoreStep_same_cat (c : Nat) (ks : List String)
    (h : ∀ k ∈ ks, (map_keyword_to_category k).map (·.id) = some c) :
    ∀ (e : CatMatch) (n : Nat), e.match_count = some n →
    ∃ e', ks.foldl scoreStep [(c, e)] = [(c, e')] ∧
      e'.match_count = some (n + ks.length) ∧ e'.id = e.id := by
  induction ks with
  | nil => exact fun e n he => ⟨e, rfl, by simpa using he, rfl⟩
  | cons k ks ih =>
    intro e n he
    obtain ⟨m, hm, hmc⟩ := Option.map_eq_some'.mp (h k (List.mem_cons_self k ks))
    have hstep : scoreStep [(c, e)] k =
        [(c, { e with match_count := some (n + 1),
                      keywords := some (e.keywords.getD [] ++ [k]) })] := by
      unfold scoreStep
      simp only [hm]
      rw [hmc]
      rw [if_pos (by simp [List.lookup])]
      simp [List.lookup, he]
    rw [List.foldl_cons, hstep]
    obtain ⟨e', he', hc', hid'⟩ := ih (fun x hx => h x (List.mem_cons_of_mem k hx))
      { e with match_count := some (n + 1), keywords := some (e.keywords.getD [] ++ [k]) }
      (n + 1) rfl
    refine ⟨e', he', ?_, hid'⟩
    rw [hc']
    congr 1
    simp only [List.length_cons]
    omega

/-! ## The claims -/

/-- Claim C1 (code_bug evidence): contrary to the specification, `get_category_by_id`
raises on a non-numeric string id — both an `IAB-AP-<id>` code string and a plain word
make the bare `int(id)` coercion raise `ValueError` — while the sibling lookup
`is_valid_category` handles the same code string without raising. -/
theorem get_category_by_id_raises_on_nonnumeric_string :
    get_category_by_id (.str "IAB-AP-1121") =
      .error "invalid literal for int() with base 10: IAB-AP-1121" ∧
    get_category_by_id (.str "smartwatch") =
      .error "invalid literal for int() with base 10: smartwatch" ∧
    is_valid_category (.str "IAB-AP-1121") = true := by
  exact ⟨rfl, rfl, by decide⟩

/-- Claim C2 (counterexample): a whitespace-only title with an absent description
passes the `if not title and not description` validation (it is checked before
trimming), so the call returns the `NoMatch` failure envelope, not the
`MissingInput` one the claim requires. -/
theorem whitespace_only_title_yields_no_match_not_missing_input :
    (map_product detOnlyCfg trivialFingerprint 0 {} [] (some "   ") none none none none
        none none true).1 =
      { success := false, error := some "No matching category found",
        source := some "deterministic",
        input := some { title := "", description := none },
        cached := some false, latency_ms := some 0 } ∧
    some "No matching category found" ≠ some "At least title or description is required" := by
  exact ⟨by decide, by decide⟩

/-- Claim C2 (amended): whenever both title and description are falsy before
trimming (`None` or the empty string), `map_product` fails with the `MissingInput`
envelope and increments the request and error counters, regardless of category,
brand, keywords, mode, min confidence or the secondary flag; whitespace-only
strings do not count as missing. -/
theorem map_product_missing_input_on_falsy_inputs (cfg : MapperCfg)
    (fingerprint : String × String × String → String) (latency : Nat) (st : Stats)
    (cache : Cache) (title description category brand : Option String)
    (keywords : Option (List String)) (mode : Option String) (min_confidence : Option ℚ)
    (include_secondary : Bool)
    (h1 : pyFalsyOptStr title = true) (h2 : pyFalsyOptStr description = true) :
    map_product cfg fingerprint latency st cache title description category brand keywords
      mode min_confidence include_secondary =
      ({ success := false, error := some "At least title or description is required" },
       { st with requests := st.requests + 1, errors := st.errors + 1 }, cache) := by
  unfold map_product
  dsimp only
  rw [if_pos (by rw [h1, h2]; rfl)]

theorem map_product_missing_input_on_falsy_inputs_witness :
    map_product detOnlyCfg trivialFingerprint 3 {} [] none (some "") (some "cat")
      (some "brand") (some ["smartphone"]) (some "hybrid") (some 0.5) false =
      ({ success := false, error := some "At least title or description is required" },
       { requests := 1, errors := 1 }, []) := by
  have h := map_product_missing_input_on_falsy_inputs detOnlyCfg trivialFingerprint 3 {} [] none (some "")
    (some "cat") (some "brand") (some ["smartphone"]) (some "hybrid") (some 0.5) false rfl rfl
  exact h

/-- Claim C3: for every non-empty list of keywords that all resolve (after
lower-casing and trimming) to the same taxonomy category id `c`,
`map_keywords_to_categories` returns exactly one entry, for `c`, whose
`match_count` is the number of keywords `n` and whose confidence is
`min(0.95 + (n - 1) * 0.01, 0.99)`. -/
theorem map_keywords_to_categories_single_category (ks : List String) (c : Nat)
    (hne : ks ≠ [])
    (h : ∀ k ∈ ks, (map_keyword_to_category k).map (·.id) = some c) :
    ∃ e, map_keywords_to_categories ks = [e] ∧ e.id = c ∧
      e.match_count = some ks.length ∧
      e.confidence = min (0.95 + ((ks.length : ℚ) - 1) * 0.01) 0.99 := by
  obtain ⟨k0, ks', rfl⟩ := List.exists_cons_of_ne_nil hne
  unfold map_keywords_to_categories
  rw [if_neg (List.cons_ne_nil k0 ks')]
  obtain ⟨m0, hm0, hmc0⟩ := Option.map_eq_some'.mp (h k0 (List.mem_cons_self k0 ks'))
  have hstep0 : scoreStep [] k0 = [(c, { m0 with match_count := some 1, keywords := some [k0] })] := by
    unfold scoreStep
    simp only [hm0]
    rw [hmc0]
    rw [if_neg (by simp [List.lookup])]
    simp
  rw [List.foldl_cons, hstep0]
  obtain ⟨e', he', hc', hid'⟩ := scoreStep_same_cat c ks'
    (fun x hx => h x (List.mem_cons_of_mem k0 hx))
    { m0 with match_count := some 1, keywords := some [k0] } 1 rfl
  rw [he']
  refine ⟨{ e' with confidence := min (0.95 + ((e'.match_count.getD 0 : ℚ) - 1) * 0.01) 0.99 },
    rfl, ?_, ?_, ?_⟩
  · exact hid'.trans hmc0
  · simp only [hc', Option.getD_some, List.length_cons]
    congr 1
    omega
  · simp only [hc', Option.getD_some, List.length_cons]
    congr 3
    push_cast
    ring

theorem map_keywords_to_categories_single_category_witness :
    ∃ e, map_keywords_to_categories ["smartphone", "smartphone", "phone"] = [e] ∧
      e.id = 1118 ∧ e.match_count = some 3 ∧ e.confidence = 0.97 := by
  obtain ⟨e, h1, h2, h3, h4⟩ := map_keywords_to_categories_single_category
    ["smartphone", "smartphone", "phone"] 1118 (by decide) (by decide)
  refine ⟨e, h1, h2, h3, ?_⟩
  rw [h4]
  decide

/-- Claim C4: `find_best_match` tokenizes by replacing non-word/non-space/non-hyphen
characters with spaces, lower-casing, splitting on whitespace and dropping tokens of
length `<= 2`; it returns the match for the first single token that is an exact
keyword-table hit, otherwise the match for the first consecutive two-token phrase
that hits, otherwise absent — stated as equality with `find_best_match_spec`, the
direct transcription of that contract. -/
theorem find_best_match_follows_spec (text : String) :
    find_best_match text = find_best_match_spec text := by
  unfold find_best_match find_best_match_spec
  by_cases ht : text = ""
  · subst ht
    rfl
  · rw [if_neg ht]
    rw [pySubChars_comm_lower]
    have htoks := pySplitWS_tokens (fun c => toLowerChar c = c)
      (pyToLowerList (pySubChars text.data))
      (by
        intro c hc
        unfold pyToLowerList at hc
        rcases List.mem_map.mp hc with ⟨d, _, rfl⟩
        exact toLowerChar_toLowerChar d)
    set toks := (pySplitWS (pyToLowerList (pySubChars text.data))).filter
      (fun w => w.length > 2) with htoksdef
    have htoks' : ∀ w ∈ toks, w ≠ [] ∧ ∀ c ∈ w, toLowerChar c = c ∧ pyIsSpace c = false := by
      intro w hw
      exact htoks w (List.mem_of_mem_filter hw)
    have hsingle : ∀ w ∈ toks, map_keyword_to_category (String.mk w) = matchKeywordSpec w := by
      intro w hw
      obtain ⟨-, hchars⟩ := htoks' w hw
      exact mkc_eq_spec w
        (pyStripList_eq_self_of_all w (fun c hc => (hchars c hc).2))
        (fun c hc => (hchars c hc).1)
    have hpair : ∀ pr ∈ adjacentPairs toks,
        map_keyword_to_category (String.mk (pr.1 ++ ' ' :: pr.2)) =
          matchKeywordSpec (pr.1 ++ ' ' :: pr.2) := by
      intro pr hpr
      obtain ⟨hm1, hm2⟩ := adjacentPairs_mem toks pr hpr
      obtain ⟨hne1, hchars1⟩ := htoks' pr.1 hm1
      obtain ⟨hne2, hchars2⟩ := htoks' pr.2 hm2
      refine mkc_eq_spec _ ?_ ?_
      · exact pyStripList_phrase pr.1 pr.2 hne1 hne2
          (fun c hc => (hchars1 c hc).2) (fun c hc => (hchars2 c hc).2)
      · intro c hc
        rcases List.mem_append.mp hc with hc | hc
        · exact (hchars1 c hc).1
        · rcases List.mem_cons.mp hc with rfl | hc
          · decide
          · exact (hchars2 c hc).1
    dsimp only
    rw [scanSingles_eq_findSome toks hsingle, scanPairs_eq_findSome toks hpair]

/-- Claim C5: in hybrid mode, if the deterministic phase produces a match with
confidence `>= 0.9`, `map_hybrid` returns the deterministic result unchanged (with
source `"deterministic"`) and performs zero classifier calls. -/
theorem map_hybrid_short_circuit (client : Option Classifier) (p : Product)
    (min_confidence : ℚ) (st : Stats)
    (h : ((map_deterministic p min_confidence st).1.categories.any
      fun c => c.confidence ≥ CONFIDENCE_THRESHOLDS_high) = true) :
    map_hybrid client p min_confidence st =
      (.ok (map_deterministic p min_confidence st).1,
       (map_deterministic p min_confidence st).2, 0) ∧
    (map_deterministic p min_confidence st).1.source = "deterministic" := by
  have hne : (map_deterministic p min_confidence st).1.categories ≠ [] := by
    rcases List.any_eq_true.mp h with ⟨c, hc, -⟩
    exact List.ne_nil_of_mem hc
  refine ⟨?_, map_deterministic_source p min_confidence st⟩
  unfold map_hybrid
  dsimp only
  rw [if_pos (by simp only [Bool.and_eq_true]; exact ⟨by simpa using hne, h⟩)]

theorem map_hybrid_short_circuit_witness :
    map_hybrid (some shortCircuitClassifier) smartphoneProduct 0.3 {} =
      (.ok (map_deterministic smartphoneProduct 0.3 {}).1,
       (map_deterministic smartphoneProduct 0.3 {}).2, 0) ∧
    (map_deterministic smartphoneProduct 0.3 {}).1.source = "deterministic" :=
  map_hybrid_short_circuit (some shortCircuitClassifier) smartphoneProduct 0.3 {}
    (by decide)

/-- Claim C6: for deterministic and semantic match lists without internal duplicate
ids, `_merge_results` produces the stable descending-by-confidence sort of the union
by category id, where an id present on both sides gets confidence
`min(0.99, deterministic + 0.1)` and sources `["deterministic", "semantic"]`, and an
id present on one side keeps its confidence and single source tag; the result is
sorted by descending confidence. -/
theorem merge_results_sorted_union (d s : List CatMatch)
    (hd : (d.map (·.id)).Nodup) (hs : (s.map (·.id)).Nodup) :
    merge_results d s = sortByDesc (fun x => x.confidence) (merged_union d s) ∧
    (merge_results d s).Chain' (fun a b => b.confidence ≤ a.confidence) := by
  have key : merge_results d s = sortByDesc (fun x => x.confidence) (merged_union d s) := by
    unfold merge_results
    rw [det_fold d [] (fun c _ => rfl) hd]
    simp only [List.nil_append]
    rw [sem_fold s _ hs]
    apply congrArg
    rw [List.map_append]
    unfold merged_union
    congr 1
    · rw [List.map_map, List.map_map]
      apply List.map_congr_left
      intro c _
      simp only [Function.comp]
      by_cases hc : (s.any fun x => decide (x.id = c.id)) = true
      · simp only [hc, if_true]
        simp [hc]
      · simp only [Bool.not_eq_true] at hc
        simp [hc]
    · rw [List.map_map]
      have hfilter : (s.filter (fun c =>
          ((d.map (fun c => (c.id, { c with sources := some ["deterministic"] }))).lookup c.id) = none)) =
          s.filter (fun c => ¬ d.any (fun x => x.id = c.id)) := by
        apply List.filter_congr
        intro x _
        apply decide_eq_decide.mpr
        rw [lookup_none_iff_not_key]
        have hkeys : (d.map (fun (c : CatMatch) =>
            (c.id, ({ c with sources := some ["deterministic"] } : CatMatch)))).map (·.1) =
            d.map (·.id) := by
          rw [List.map_map]
          rfl
        rw [hkeys]
        constructor
        · intro h hany
          rcases List.any_eq_true.mp hany with ⟨y, hy, hyx⟩
          simp only [decide_eq_true_eq] at hyx
          exact h (hyx ▸ List.mem_map_of_mem (·.id) hy)
        · intro h hmem
          rcases List.mem_map.mp hmem with ⟨y, hy, hyx⟩
          exact h (List.any_eq_true.mpr ⟨y, hy, by simp [hyx]⟩)
      rw [hfilter]
      apply List.map_congr_left
      intro c _
      rfl
  refine ⟨key, ?_⟩
  rw [key]
  exact chain_sortByDesc _ _

theorem merge_results_sorted_union_witness :
    merge_results detSample semSample =
      sortByDesc (fun x => x.confidence) (merged_union detSample semSample) ∧
    (merge_results detSample semSample).Chain' (fun a b => b.confidence ≤ a.confidence) :=
  merge_results_sorted_union detSample semSample (by decide) (by decide)

/-- Claim C7 (counterexample): mapping `"Apple Watch Series 9"` / `"GPS smartwatch
with heart rate monitor"` in deterministic mode yields primary id 1070 (Watches),
not 1121 (Smartwatches): the tokens `watch`, `smartwatch` and `monitor` each hit a
different category with one keyword apiece, and the stable sort leaves the first
encountered — `watch` — on top under first-occurrence keyword enumeration. -/
theorem apple_watch_primary_is_1070_not_1121 :
    ((map_product detOnlyCfg trivialFingerprint 0 {} [] (some "Apple Watch Series 9")
        (some "GPS smartwatch with heart rate monitor") none none none none none true).1.iab_product.map
      (fun i => i.primary_id)) = some 1070 ∧ (1070 : Nat) ≠ 1121 := by
  exact ⟨by decide, by decide⟩

/-- Claim C7 (amended): that mapping succeeds, with three tied matches of confidence
0.95 — Watches (1070), Smartwatches (1121) and TVs and Displays (1130).  Under the
embedding's first-occurrence model of `list(set(...))` the primary is 1070 with
tier-1 label "Clothing and Accessories" and 1121 appears as the first secondary;
which of the tied categories becomes primary in CPython depends on its unspecified
set iteration order, so primary 1121 is not guaranteed. -/
theorem apple_watch_deterministic_envelope :
    (map_product detOnlyCfg trivialFingerprint 0 {} [] (some "Apple Watch Series 9")
        (some "GPS smartwatch with heart rate monitor") none none none none none true).1 =
      { success := true,
        iab_product := some
          { primary := "IAB-AP-1070", primary_id := 1070,
            label := "Clothing and Accessories > Watches",
            confidence := 0.95, version := "2.0",
            tier1 := some "IAB-AP-1055", tier1_id := some 1055,
            tier1_label := some "Clothing and Accessories",
            secondary := some
              [{ code := "IAB-AP-1121", id := 1121,
                 label := "Consumer Electronics > Wearables > Smartwatches",
                 confidence := 0.95 },
               { code := "IAB-AP-1130", id := 1130,
                 label := "Consumer Electronics > TVs and Displays",
                 confidence := 0.95 }],
            explanation := some "Matched keywords: watch" },
        source := some "deterministic",
        input := some { title := "Apple Watch Series 9",
                        description := some "GPS smartwatch with heart rate monitor" },
        cached := some false, latency_ms := some 0 } := by
  decide

/-- Claim C8: (1) whenever the mode dispatch (for instance the external classifier)
raises, `map_product` returns the failure envelope carrying the message and the
integer latency, increments the error counter, leaves the cache unchanged and does
not propagate the exception (the embedding's return type is total); (2) no call
that returns a failure envelope — including `NoMatch` — ever writes to the cache. -/
theorem map_product_catches_errors_never_caches_failures :
    (∀ (cfg : MapperCfg) (fingerprint : String × String × String → String) (latency : Nat)
       (st : Stats) (cache : Cache) (title description category brand : Option String)
       (keywords : Option (List String)) (mode : Option String) (min_confidence : Option ℚ)
       (include_secondary : Bool) (msg : String) (st2 : Stats) (ncalls : Nat),
      (pyFalsyOptStr title && pyFalsyOptStr description) = false →
      (if cfg.hasCache then
          cache_get cache (create_cache_key fingerprint
            (built_product title description category brand keywords))
        else none) = none →
      mode_dispatch cfg (built_product title description category brand keywords)
          (match mode with
           | some m => if m = "" then cfg.mapping_mode else m
           | none => cfg.mapping_mode)
          (min_confidence.getD cfg.min_confidence)
          { st with requests := st.requests + 1 } = (.error msg, st2, ncalls) →
      map_product cfg fingerprint latency st cache title description category brand keywords
          mode min_confidence include_secondary =
        ({ success := false, error := some msg, latency_ms := some latency },
         { st2 with errors := st2.errors + 1 }, cache)) ∧
    (∀ (cfg : MapperCfg) (fingerprint : String × String × String → String) (latency : Nat)
       (st : Stats) (cache : Cache) (title description category brand : Option String)
       (keywords : Option (List String)) (mode : Option String) (min_confidence : Option ℚ)
       (include_secondary : Bool),
      (map_product cfg fingerprint latency st cache title description category brand keywords
          mode min_confidence include_secondary).1.success = false →
      (map_product cfg fingerprint latency st cache title description category brand keywords
          mode min_confidence include_secondary).2.2 = cache) := by
  constructor
  · intro cfg fingerprint latency st cache title description category brand keywords mode
      min_confidence include_secondary msg st2 ncalls hval hmiss hdisp
    unfold map_product
    dsimp only
    simp only [hval, Bool.false_eq_true, if_false]
    rw [hmiss, hdisp]
  · intro cfg fingerprint latency st cache title description category brand keywords mode
      min_confidence include_secondary h
    by_cases hval : (pyFalsyOptStr title && pyFalsyOptStr description) = true
    · unfold map_product
      dsimp only
      rw [if_pos hval]
    · have hval' : (pyFalsyOptStr title && pyFalsyOptStr description) = false :=
        Bool.not_eq_true _ ▸ (Bool.eq_false_iff.mpr hval)
      unfold map_product at h ⊢
      dsimp only at h ⊢
      simp only [hval', Bool.false_eq_true, if_false] at h ⊢
      cases hcache : (if cfg.hasCache then
          cache_get cache (create_cache_key fingerprint
            (built_product title description category brand keywords))
        else none) with
      | some env => rfl
      | none =>
        rw [hcache] at h
        cases mode with
        | none =>
          dsimp only at h ⊢
          rcases hdisp : mode_dispatch cfg
              (built_product title description category brand keywords) cfg.mapping_mode
              (min_confidence.getD cfg.min_confidence)
              { st with requests := st.requests + 1 } with ⟨r, st2, n⟩
          rw [hdisp] at h
          cases r with
          | error e => rfl
          | ok result =>
            dsimp only at h ⊢
            rw [h]
            simp
        | some m =>
          dsimp only at h ⊢
          by_cases hm : m = ""
          · rw [if_pos hm] at h ⊢
            rcases hdisp : mode_dispatch cfg
                (built_product title description category brand keywords) cfg.mapping_mode
                (min_confidence.getD cfg.min_confidence)
                { st with requests := st.requests + 1 } with ⟨r, st2, n⟩
            rw [hdisp] at h
            cases r with
            | error e => rfl
            | ok result =>
              dsimp only at h ⊢
              rw [h]
              simp
          · rw [if_neg hm] at h ⊢
            rcases hdisp : mode_dispatch cfg
                (built_product title description category brand keywords) m
                (min_confidence.getD cfg.min_confidence)
                { st with requests := st.requests + 1 } with ⟨r, st2, n⟩
            rw [hdisp] at h
            cases r with
            | error e => rfl
            | ok result =>
              dsimp only at h ⊢
              rw [h]
              simp

theorem map_product_catches_errors_never_caches_failures_witness :
    (map_product semBoomCfg trivialFingerprint 5 {} [] (some "x") none none none none
        none none true =
      ({ success := false, error := some "boom", latency_ms := some 5 },
       { requests := 1, errors := 1 }, [])) ∧
    (map_product detOnlyCfg trivialFingerprint 0 {} [] (some "   ") none none none none
        none none true).2.2 = [] := by
  constructor
  · exact map_product_catches_errors_never_caches_failures.1 semBoomCfg trivialFingerprint 5 {} [] (some "x") none none none none
      none none true "boom" { requests := 1 } 1 (by decide) (by decide) (by rfl)
  · exact map_product_catches_errors_never_caches_failures.2 detOnlyCfg trivialFingerprint 0 {} [] (some "   ") none none none none
      none none true (by decide)

/-- Claim C9: for every id in the taxonomy table,
`get_id_from_code (get_iab_code id) = id` (round trip), and `get_iab_code` is
injective over table ids. -/
theorem iab_code_roundtrip_injective :
    ∀ id ∈ IAB_AD_PRODUCT_TAXONOMY.map (·.1),
      get_id_from_code (get_iab_code id) = some (id : Int) ∧
      ∀ id2 ∈ IAB_AD_PRODUCT_TAXONOMY.map (·.1),
        get_iab_code id = get_iab_code id2 → id = id2 := by
  have hrt : ∀ id ∈ IAB_AD_PRODUCT_TAXONOMY.map (·.1),
      get_id_from_code (get_iab_code id) = some (id : Int) := by decide
  intro id hid
  refine ⟨hrt id hid, ?_⟩
  intro id2 hid2 hcode
  have h1 := hrt id hid
  have h2 := hrt id2 hid2
  rw [hcode, h2] at h1
  have := Option.some.inj h1
  exact_mod_cast this.symm

theorem iab_code_roundtrip_injective_witness :
    get_id_from_code (get_iab_code 1121) = some 1121 ∧ (1121 : Nat) = 1121 :=
  ⟨(iab_code_roundtrip_injective 1121 (by decide)).1,
   (iab_code_roundtrip_injective 1121 (by decide)).2 1121 (by decide) rfl⟩

/-- Claim C10: (1) the cache key depends only on the lower-cased, trimmed,
truncated title (100 chars), description (200 chars) and category of the sanitized
product — calls agreeing on that triple but differing in brand or keywords (and
trivially in mode, min confidence or the secondary flag, which never reach the key)
yield equal keys; (2) with caching enabled, a call whose key is present returns the
stored envelope with `cached = true`. -/
theorem cache_key_depends_only_on_normalized_triple :
    (∀ (fingerprint : String × String × String → String)
       (t1 d1 c1 b1 : Option String) (k1 : Option (List String))
       (t2 d2 c2 b2 : Option String) (k2 : Option (List String)),
      cacheKeyTriple (built_product t1 d1 c1 b1 k1) =
        cacheKeyTriple (built_product t2 d2 c2 b2 k2) →
      create_cache_key fingerprint (built_product t1 d1 c1 b1 k1) =
        create_cache_key fingerprint (built_product t2 d2 c2 b2 k2)) ∧
    (∀ (cfg : MapperCfg) (fingerprint : String × String × String → String) (latency : Nat)
       (st : Stats) (cache : Cache) (title description category brand : Option String)
       (keywords : Option (List String)) (mode : Option String) (min_confidence : Option ℚ)
       (include_secondary : Bool) (env : Envelope),
      (pyFalsyOptStr title && pyFalsyOptStr description) = false →
      cfg.hasCache = true →
      cache_get cache (create_cache_key fingerprint
        (built_product title description category brand keywords)) = some env →
      map_product cfg fingerprint latency st cache title description category brand keywords
          mode min_confidence include_secondary =
        ({ env with cached := some true, latency_ms := some latency },
         { st with requests := st.requests + 1, cache_hits := st.cache_hits + 1 }, cache)) := by
  constructor
  · intro fingerprint t1 d1 c1 b1 k1 t2 d2 c2 b2 k2 h
    unfold create_cache_key
    rw [h]
  · intro cfg fingerprint latency st cache title description category brand keywords mode
      min_confidence include_secondary env hval hcacheon hhit
    unfold map_product
    dsimp only
    simp only [hval, Bool.false_eq_true, if_false]
    simp only [hcacheon, if_true]
    rw [hhit]

theorem cache_key_depends_only_on_normalized_triple_witness :
    (create_cache_key trivialFingerprint
        (built_product (some "Watch X") none none (some "BrandA") (some ["k1"])) =
      create_cache_key trivialFingerprint
        (built_product (some "  watch x  ") none none none none)) ∧
    map_product { mapping_mode := "deterministic" } trivialFingerprint 9 {}
        [("mixpeek_iab_ap_fp", hitEnvelope)]
        (some "Watch X") none none (some "BrandA") (some ["k1"]) (some "semantic")
        (some 0.9) false =
      ({ hitEnvelope with cached := some true, latency_ms := some 9 },
       { requests := 1, cache_hits := 1 }, [("mixpeek_iab_ap_fp", hitEnvelope)]) := by
  constructor
  · exact cache_key_depends_only_on_normalized_triple.1 trivialFingerprint (some "Watch X") none none (some "BrandA")
      (some ["k1"]) (some "  watch x  ") none none none none (by decide)
  · exact cache_key_depends_only_on_normalized_triple.2 { mapping_mode := "deterministic" } trivialFingerprint 9 {} _
      (some "Watch X") none none (some "BrandA") (some ["k1"]) (some "semantic") (some 0.9)
      false hitEnvelope (by decide) (by rfl) (by decide)
